import Mathlib

/-!
Shallow embedding of the rate-limiting engine in
src/src/security/rate_limiter.py (class RateLimiter together with
RedisRateLimitBackend, RateLimitConfig and RateLimitState).

Modelling conventions:
* Python floats carrying timestamps (time.time()) are modelled as rationals;
  all the arithmetic performed on them by this module (subtraction,
  comparison, floor division, float modulo) is exact on the values it is
  applied to, so the rational model is faithful.
* Python ints are modelled as Int.
* The two per-identifier defaultdicts of RateLimitState and the
  defaultdict(int) of concurrency counters are modelled as functions
  String -> Option _ (None = key absent).  A defaultdict read creates the
  entry; entry creation is modelled at the points where the created entry
  can later be observed (the window states, which the code writes back);
  a pure read of a concurrency counter is modelled as a read with default 0,
  since an entry created at 0 is removed again by the next cleanup and is
  never otherwise observable.
* asyncio locking is not modelled: every operation is a sequential state
  transformer, which is exactly the behaviour the lock enforces.
* Exceptions (RateLimitExceeded) become Except / Option error values; the
  human-readable message string of the exception is not modelled, only its
  limit_type and retry_after fields.
* The Redis backend is modelled as a key/value store (String -> Int, absent
  keys read as 0, matching the code's int(count) if count else 0) plus a
  connected flag covering _ensure_connected: when the connection failed,
  every backend operation returns the sentinel 0 and changes nothing,
  mirroring the except-branches.  Key TTLs are recorded as arguments but
  key expiry is not modelled (no real-time passage inside one run).
* RateLimiter._enabled is a copy of config.enabled made in __init__ and the
  Redis backend object exists iff config.use_redis was set at construction,
  so both are read off the (immutable) config.
-/

/-- Mirrors dataclass RateLimitConfig (Redis connection parameters host /
port / db are irrelevant to the control flow and omitted; the key namespace
of redis keys is kept as the literal default value inside make_key). -/
structure RateLimitConfig where
  enabled : Bool
  requests_per_minute : Int
  requests_per_hour : Int
  tokens_per_minute : Int
  tokens_per_hour : Int
  max_concurrent_requests : Int
  per_user : Bool
  burst_multiplier : Rat
  use_redis : Bool
  require_user_id : Bool
  fallback_to_session : Bool
deriving DecidableEq

/-- The dataclass defaults of RateLimitConfig. -/
def defaultConfig : RateLimitConfig :=
  { enabled := true
    requests_per_minute := 60
    requests_per_hour := 1000
    tokens_per_minute := 100000
    tokens_per_hour := 1000000
    max_concurrent_requests := 10
    per_user := true
    burst_multiplier := 3 / 2
    use_redis := false
    require_user_id := false
    fallback_to_session := true }

/-- Mirrors dataclass RateLimitState (one rate-limit window). -/
structure RateLimitState where
  count : Int
  tokens : Int
  window_start : Rat
  concurrent : Int
deriving DecidableEq

/-- A freshly created RateLimitState: the dataclass defaults, with
window_start = time.time() at creation. -/
def freshState (now : Rat) : RateLimitState :=
  { count := 0, tokens := 0, window_start := now, concurrent := 0 }

/-- Mirrors exception RateLimitExceeded (message text not modelled). -/
structure RateLimitExceeded where
  limit_type : String
  retry_after : Option Rat
deriving DecidableEq

/-- Python int() applied to a rational value: truncation toward zero. -/
def py_int (q : Rat) : Int :=
  if q < 0 then -((-q).floor) else q.floor

/-- Python float modulo x % m for m > 0: x - m * floor (x / m). -/
def pymod (x m : Rat) : Rat :=
  x - m * ((x / m).floor : Rat)

/-- Python truthiness of an Optional[str]: None and the empty string are
falsy. -/
def truthy : Option String → Bool
  | none => false
  | some s => s != ""

/-- Mirrors RateLimiter._get_identifier. -/
def get_identifier (cfg : RateLimitConfig) (user_id session_id : Option String) :
    Except RateLimitExceeded String :=
  if truthy user_id then
    Except.ok (user_id.getD "")
  else if cfg.require_user_id then
    Except.error { limit_type := "authentication", retry_after := none }
  else if cfg.fallback_to_session && truthy session_id then
    Except.ok ("session:" ++ session_id.getD "")
  else
    Except.ok "anonymous"

/-- The mutable in-memory state of a RateLimiter instance. -/
@[ext]
structure LimiterState where
  user_minute_state : String → Option RateLimitState
  user_hour_state : String → Option RateLimitState
  global_minute_state : RateLimitState
  global_hour_state : RateLimitState
  concurrent_requests : String → Option Int
  global_concurrent : Int

/-- The state right after RateLimiter.__init__ at time t0. -/
def initState (t0 : Rat) : LimiterState :=
  { user_minute_state := fun _ => none
    user_hour_state := fun _ => none
    global_minute_state := freshState t0
    global_hour_state := freshState t0
    concurrent_requests := fun _ => none
    global_concurrent := 0 }

/-- Pointwise update of a string-keyed map. -/
def mapSet {α : Type} (f : String → Option α) (k : String) (v : α) :
    String → Option α :=
  fun x => if x = k then some v else f x

/-- Mirrors RateLimiter._cleanup_windows: drop minute windows stale beyond
120 s, hour windows stale beyond 7200 s, and concurrency entries at zero. -/
def cleanup_windows (now : Rat) (st : LimiterState) : LimiterState :=
  { st with
    user_minute_state := fun k =>
      match st.user_minute_state k with
      | some v => if now - v.window_start > 120 then none else some v
      | none => none
    user_hour_state := fun k =>
      match st.user_hour_state k with
      | some v => if now - v.window_start > 7200 then none else some v
      | none => none
    concurrent_requests := fun k =>
      match st.concurrent_requests k with
      | some v => if v = 0 then none else some v
      | none => none }

/-- self._user_minute_state[identifier] if per_user else
self._global_minute_state (defaultdict read: a missing entry is a fresh
RateLimitState created now). -/
def minuteStateOf (cfg : RateLimitConfig) (st : LimiterState) (id : String)
    (now : Rat) : RateLimitState :=
  if cfg.per_user then (st.user_minute_state id).getD (freshState now)
  else st.global_minute_state

/-- Writing the minute window back (in Python the defaultdict entry is
mutated in place, so the write is implicit there). -/
def setMinuteState (cfg : RateLimitConfig) (st : LimiterState) (id : String)
    (v : RateLimitState) : LimiterState :=
  if cfg.per_user then
    { st with user_minute_state := mapSet st.user_minute_state id v }
  else
    { st with global_minute_state := v }

/-- Hour-window analogue of minuteStateOf. -/
def hourStateOf (cfg : RateLimitConfig) (st : LimiterState) (id : String)
    (now : Rat) : RateLimitState :=
  if cfg.per_user then (st.user_hour_state id).getD (freshState now)
  else st.global_hour_state

/-- Hour-window analogue of setMinuteState. -/
def setHourState (cfg : RateLimitConfig) (st : LimiterState) (id : String)
    (v : RateLimitState) : LimiterState :=
  if cfg.per_user then
    { st with user_hour_state := mapSet st.user_hour_state id v }
  else
    { st with global_hour_state := v }

/-- self._concurrent_requests[identifier] if per_user else
self._global_concurrent (defaultdict(int): missing reads as 0). -/
def concurrentOf (cfg : RateLimitConfig) (st : LimiterState) (id : String) : Int :=
  if cfg.per_user then (st.concurrent_requests id).getD 0
  else st.global_concurrent

/-- Writing a concurrency counter back. -/
def setConcurrent (cfg : RateLimitConfig) (st : LimiterState) (id : String)
    (v : Int) : LimiterState :=
  if cfg.per_user then
    { st with concurrent_requests := mapSet st.concurrent_requests id v }
  else
    { st with global_concurrent := v }

/-- The lazy rollover performed at the top of the per-minute and per-hour
checks: if now - window_start >= period, zero count and restart the window
(note: only count is zeroed; the tokens field is left as it is). -/
def roll (period : Rat) (s : RateLimitState) (now : Rat) : RateLimitState :=
  if now - s.window_start ≥ period then
    { s with count := 0, window_start := now }
  else s

/-- Mirrors RateLimiter._check_concurrent_limit (read-only). -/
def check_concurrent_limit (cfg : RateLimitConfig) (st : LimiterState)
    (id : String) : Option RateLimitExceeded :=
  if concurrentOf cfg st id ≥ cfg.max_concurrent_requests then
    some { limit_type := "concurrent", retry_after := some 1 }
  else none

/-- Mirrors RateLimiter._check_request_limit: rolls the minute window,
tests the burst-adjusted minute ceiling, then rolls the hour window and
tests the (unadjusted) hour ceiling.  In-place mutations made before a
raise persist, so the partially updated state is returned with the error. -/
def check_request_limit (cfg : RateLimitConfig) (st : LimiterState)
    (id : String) (now : Rat) : Option RateLimitExceeded × LimiterState :=
  let ms := roll 60 (minuteStateOf cfg st id now) now
  let st1 := setMinuteState cfg st id ms
  if ms.count ≥ py_int ((cfg.requests_per_minute : Rat) * cfg.burst_multiplier) then
    (some { limit_type := "requests_per_minute"
            retry_after := some (max 0 (60 - (now - ms.window_start))) }, st1)
  else
    let hs := roll 3600 (hourStateOf cfg st1 id now) now
    let st2 := setHourState cfg st1 id hs
    if hs.count ≥ cfg.requests_per_hour then
      (some { limit_type := "requests_per_hour"
              retry_after := some (max 0 (3600 - (now - hs.window_start))) }, st2)
    else (none, st2)

/-- Mirrors RateLimiter._check_token_limit: no rollover here; rejects when
tokens-so-far plus the request's tokens exceed the burst-adjusted minute
token ceiling. -/
def check_token_limit (cfg : RateLimitConfig) (st : LimiterState) (id : String)
    (tokens : Int) (now : Rat) : Option RateLimitExceeded × LimiterState :=
  let ms := minuteStateOf cfg st id now
  let st1 := setMinuteState cfg st id ms
  if ms.tokens + tokens > py_int ((cfg.tokens_per_minute : Rat) * cfg.burst_multiplier) then
    (some { limit_type := "tokens_per_minute"
            retry_after := some (max 0 (60 - (now - ms.window_start))) }, st1)
  else (none, st1)

/-- Mirrors RateLimiter._check_limit_memory: cleanup, then concurrency,
request and (if estimated_tokens > 0) token checks, first failure wins. -/
def check_limit_memory (cfg : RateLimitConfig) (st : LimiterState) (id : String)
    (estimated_tokens : Int) (now : Rat) :
    Except RateLimitExceeded Bool × LimiterState :=
  let st1 := cleanup_windows now st
  match check_concurrent_limit cfg st1 id with
  | some e => (Except.error e, st1)
  | none =>
    match check_request_limit cfg st1 id now with
    | (some e, st2) => (Except.error e, st2)
    | (none, st2) =>
      if estimated_tokens > 0 then
        match check_token_limit cfg st2 id estimated_tokens now with
        | (some e, st3) => (Except.error e, st3)
        | (none, st3) => (Except.ok true, st3)
      else (Except.ok true, st2)

/-- The Redis backend: a connected flag (the outcome of _ensure_connected)
and the key/value store (absent keys read as 0). -/
structure RedisRateLimitBackend where
  connected : Bool
  store : String → Int

/-- Mirrors RedisRateLimitBackend._make_key with the default key namespace
of the dataclass ("ratelimit:"). -/
def make_key (identifier window : String) : String :=
  "ratelimit:" ++ identifier ++ ":" ++ window

/-- Pointwise update of the Redis store. -/
def storeSet (f : String → Int) (k : String) (v : Int) : String → Int :=
  fun x => if x = k then v else f x

/-- Mirrors RedisRateLimitBackend.get_count (0 when degraded or missing). -/
def RedisRateLimitBackend.get_count (b : RedisRateLimitBackend)
    (identifier window : String) : Int :=
  if b.connected then b.store (make_key identifier window) else 0

/-- Mirrors RedisRateLimitBackend.increment: INCRBY + EXPIRE, returning the
new count; 0 and no change when degraded.  The ttl is recorded but key
expiry is not modelled. -/
def RedisRateLimitBackend.increment (b : RedisRateLimitBackend)
    (identifier window : String) (_ttl : Int) (amount : Int) :
    Int × RedisRateLimitBackend :=
  if b.connected then
    let k := make_key identifier window
    let n := b.store k + amount
    (n, { b with store := storeSet b.store k n })
  else (0, b)

/-- Mirrors RedisRateLimitBackend.get_concurrent. -/
def RedisRateLimitBackend.get_concurrent (b : RedisRateLimitBackend)
    (identifier : String) : Int :=
  if b.connected then b.store (make_key identifier "concurrent") else 0

/-- Mirrors RedisRateLimitBackend.incr_concurrent. -/
def RedisRateLimitBackend.incr_concurrent (b : RedisRateLimitBackend)
    (identifier : String) (_ttl : Int) : Int × RedisRateLimitBackend :=
  if b.connected then
    let k := make_key identifier "concurrent"
    let n := b.store k + 1
    (n, { b with store := storeSet b.store k n })
  else (0, b)

/-- Mirrors RedisRateLimitBackend.decr_concurrent: DECR, then clamp the key
back to 0 when it went negative. -/
def RedisRateLimitBackend.decr_concurrent (b : RedisRateLimitBackend)
    (identifier : String) : Int × RedisRateLimitBackend :=
  if b.connected then
    let k := make_key identifier "concurrent"
    let n := b.store k - 1
    if n < 0 then (0, { b with store := storeSet b.store k 0 })
    else (n, { b with store := storeSet b.store k n })
  else (0, b)

/-- Mirrors RateLimiter._check_limit_redis: concurrency, burst-adjusted
minute count, unadjusted hour count; no token check at all, and the
backend is only read, never written. -/
def check_limit_redis (cfg : RateLimitConfig) (b : RedisRateLimitBackend)
    (identifier : String) (_estimated_tokens : Int) (now : Rat) :
    Except RateLimitExceeded Bool :=
  let minute_window := "minute:" ++ toString (now / 60).floor
  let hour_window := "hour:" ++ toString (now / 3600).floor
  if b.get_concurrent identifier ≥ cfg.max_concurrent_requests then
    Except.error { limit_type := "concurrent", retry_after := some 1 }
  else if b.get_count identifier minute_window ≥
      py_int ((cfg.requests_per_minute : Rat) * cfg.burst_multiplier) then
    Except.error { limit_type := "requests_per_minute"
                   retry_after := some (60 - pymod now 60) }
  else if b.get_count identifier hour_window ≥ cfg.requests_per_hour then
    Except.error { limit_type := "requests_per_hour"
                   retry_after := some (3600 - pymod now 3600) }
  else Except.ok true

/-- Mirrors RateLimiter.check_limit. -/
def check_limit (cfg : RateLimitConfig) (st : LimiterState)
    (b : RedisRateLimitBackend) (user_id : Option String)
    (estimated_tokens : Int) (session_id : Option String) (now : Rat) :
    Except RateLimitExceeded Bool × LimiterState :=
  if cfg.enabled = false then (Except.ok true, st)
  else
    match get_identifier cfg user_id session_id with
    | Except.error e => (Except.error e, st)
    | Except.ok identifier =>
      if cfg.use_redis then (check_limit_redis cfg b identifier estimated_tokens now, st)
      else check_limit_memory cfg st identifier estimated_tokens now

/-- Mirrors RateLimiter.record_request.  The Redis path increments the
minute and hour request counters by 1 (the increment amount defaults to 1
and tokens_used is never forwarded); the memory path bumps count by 1 and
tokens by tokens_used in both windows. -/
def record_request (cfg : RateLimitConfig) (st : LimiterState)
    (b : RedisRateLimitBackend) (user_id : Option String) (tokens_used : Int)
    (session_id : Option String) (now : Rat) :
    Except RateLimitExceeded Unit × LimiterState × RedisRateLimitBackend :=
  if cfg.enabled = false then (Except.ok (), st, b)
  else
    match get_identifier cfg user_id session_id with
    | Except.error e => (Except.error e, st, b)
    | Except.ok identifier =>
      if cfg.use_redis then
        let minute_window := "minute:" ++ toString (now / 60).floor
        let hour_window := "hour:" ++ toString (now / 3600).floor
        let b1 := (b.increment identifier minute_window 120 1).2
        let b2 := (b1.increment identifier hour_window 7200 1).2
        (Except.ok (), st, b2)
      else
        let ms := minuteStateOf cfg st identifier now
        let st1 := setMinuteState cfg st identifier
          { ms with count := ms.count + 1, tokens := ms.tokens + tokens_used }
        let hs := hourStateOf cfg st1 identifier now
        let st2 := setHourState cfg st1 identifier
          { hs with count := hs.count + 1, tokens := hs.tokens + tokens_used }
        (Except.ok (), st2, b)

/-- Mirrors RateLimiter.acquire_concurrent_slot. -/
def acquire_concurrent_slot (cfg : RateLimitConfig) (st : LimiterState)
    (b : RedisRateLimitBackend) (user_id session_id : Option String) :
    Except RateLimitExceeded Unit × LimiterState × RedisRateLimitBackend :=
  if cfg.enabled = false then (Except.ok (), st, b)
  else
    match get_identifier cfg user_id session_id with
    | Except.error e => (Except.error e, st, b)
    | Except.ok identifier =>
      if cfg.use_redis then
        (Except.ok (), st, (b.incr_concurrent identifier 300).2)
      else
        (Except.ok (),
         setConcurrent cfg st identifier (concurrentOf cfg st identifier + 1), b)

/-- Mirrors RateLimiter.release_concurrent_slot (max(0, x - 1) in both the
per-user and the global branch). -/
def release_concurrent_slot (cfg : RateLimitConfig) (st : LimiterState)
    (b : RedisRateLimitBackend) (user_id session_id : Option String) :
    Except RateLimitExceeded Unit × LimiterState × RedisRateLimitBackend :=
  if cfg.enabled = false then (Except.ok (), st, b)
  else
    match get_identifier cfg user_id session_id with
    | Except.error e => (Except.error e, st, b)
    | Except.ok identifier =>
      if cfg.use_redis then
        (Except.ok (), st, (b.decr_concurrent identifier).2)
      else
        (Except.ok (),
         setConcurrent cfg st identifier
           (max 0 (concurrentOf cfg st identifier - 1)), b)

/-- The request / token counters of the minute window as observable for one
identifier (the pair (count, tokens); a missing entry observes as (0, 0)). -/
def obs_minute (cfg : RateLimitConfig) (st : LimiterState) (id : String) :
    Int × Int :=
  if cfg.per_user then
    match st.user_minute_state id with
    | some v => (v.count, v.tokens)
    | none => (0, 0)
  else (st.global_minute_state.count, st.global_minute_state.tokens)

/-- Hour-window analogue of obs_minute. -/
def obs_hour (cfg : RateLimitConfig) (st : LimiterState) (id : String) :
    Int × Int :=
  if cfg.per_user then
    match st.user_hour_state id with
    | some v => (v.count, v.tokens)
    | none => (0, 0)
  else (st.global_hour_state.count, st.global_hour_state.tokens)

/-! ## Helper lemmas about the state accessors -/

theorem setMinuteState_hour_map (cfg : RateLimitConfig) (st : LimiterState)
    (id : String) (v : RateLimitState) :
    (setMinuteState cfg st id v).user_hour_state = st.user_hour_state := by
  unfold setMinuteState; split <;> rfl

theorem setMinuteState_global_hour (cfg : RateLimitConfig) (st : LimiterState)
    (id : String) (v : RateLimitState) :
    (setMinuteState cfg st id v).global_hour_state = st.global_hour_state := by
  unfold setMinuteState; split <;> rfl

theorem setMinuteState_conc_map (cfg : RateLimitConfig) (st : LimiterState)
    (id : String) (v : RateLimitState) :
    (setMinuteState cfg st id v).concurrent_requests = st.concurrent_requests := by
  unfold setMinuteState; split <;> rfl

theorem setMinuteState_global_conc (cfg : RateLimitConfig) (st : LimiterState)
    (id : String) (v : RateLimitState) :
    (setMinuteState cfg st id v).global_concurrent = st.global_concurrent := by
  unfold setMinuteState; split <;> rfl

theorem setHourState_minute_map (cfg : RateLimitConfig) (st : LimiterState)
    (id : String) (v : RateLimitState) :
    (setHourState cfg st id v).user_minute_state = st.user_minute_state := by
  unfold setHourState; split <;> rfl

theorem setHourState_global_minute (cfg : RateLimitConfig) (st : LimiterState)
    (id : String) (v : RateLimitState) :
    (setHourState cfg st id v).global_minute_state = st.global_minute_state := by
  unfold setHourState; split <;> rfl

theorem setHourState_conc_map (cfg : RateLimitConfig) (st : LimiterState)
    (id : String) (v : RateLimitState) :
    (setHourState cfg st id v).concurrent_requests = st.concurrent_requests := by
  unfold setHourState; split <;> rfl

theorem setHourState_global_conc (cfg : RateLimitConfig) (st : LimiterState)
    (id : String) (v : RateLimitState) :
    (setHourState cfg st id v).global_concurrent = st.global_concurrent := by
  unfold setHourState; split <;> rfl

theorem setConcurrent_minute_map (cfg : RateLimitConfig) (st : LimiterState)
    (id : String) (v : Int) :
    (setConcurrent cfg st id v).user_minute_state = st.user_minute_state := by
  unfold setConcurrent; split <;> rfl

theorem setConcurrent_hour_map (cfg : RateLimitConfig) (st : LimiterState)
    (id : String) (v : Int) :
    (setConcurrent cfg st id v).user_hour_state = st.user_hour_state := by
  unfold setConcurrent; split <;> rfl

theorem setConcurrent_global_minute (cfg : RateLimitConfig) (st : LimiterState)
    (id : String) (v : Int) :
    (setConcurrent cfg st id v).global_minute_state = st.global_minute_state := by
  unfold setConcurrent; split <;> rfl

theorem setConcurrent_global_hour (cfg : RateLimitConfig) (st : LimiterState)
    (id : String) (v : Int) :
    (setConcurrent cfg st id v).global_hour_state = st.global_hour_state := by
  unfold setConcurrent; split <;> rfl

theorem minuteStateOf_setMinuteState (cfg : RateLimitConfig) (st : LimiterState)
    (id : String) (v : RateLimitState) (now : Rat) :
    minuteStateOf cfg (setMinuteState cfg st id v) id now = v := by
  unfold minuteStateOf setMinuteState
  by_cases h : cfg.per_user <;> simp [h, mapSet]

theorem hourStateOf_setHourState (cfg : RateLimitConfig) (st : LimiterState)
    (id : String) (v : RateLimitState) (now : Rat) :
    hourStateOf cfg (setHourState cfg st id v) id now = v := by
  unfold hourStateOf setHourState
  by_cases h : cfg.per_user <;> simp [h, mapSet]

theorem minuteStateOf_setHourState (cfg : RateLimitConfig) (st : LimiterState)
    (id id' : String) (v : RateLimitState) (now : Rat) :
    minuteStateOf cfg (setHourState cfg st id v) id' now =
      minuteStateOf cfg st id' now := by
  unfold minuteStateOf
  rw [setHourState_minute_map, setHourState_global_minute]

theorem hourStateOf_setMinuteState (cfg : RateLimitConfig) (st : LimiterState)
    (id id' : String) (v : RateLimitState) (now : Rat) :
    hourStateOf cfg (setMinuteState cfg st id v) id' now =
      hourStateOf cfg st id' now := by
  unfold hourStateOf
  rw [setMinuteState_hour_map, setMinuteState_global_hour]

theorem concurrentOf_setMinuteState (cfg : RateLimitConfig) (st : LimiterState)
    (id id' : String) (v : RateLimitState) :
    concurrentOf cfg (setMinuteState cfg st id v) id' = concurrentOf cfg st id' := by
  unfold concurrentOf
  rw [setMinuteState_conc_map, setMinuteState_global_conc]

theorem concurrentOf_setHourState (cfg : RateLimitConfig) (st : LimiterState)
    (id id' : String) (v : RateLimitState) :
    concurrentOf cfg (setHourState cfg st id v) id' = concurrentOf cfg st id' := by
  unfold concurrentOf
  rw [setHourState_conc_map, setHourState_global_conc]

theorem concurrentOf_setConcurrent (cfg : RateLimitConfig) (st : LimiterState)
    (id : String) (v : Int) :
    concurrentOf cfg (setConcurrent cfg st id v) id = v := by
  unfold concurrentOf setConcurrent
  by_cases h : cfg.per_user <;> simp [h, mapSet]

/-! ## Derived descriptions of the memory-path check pipeline -/

/-- The burst-adjusted per-minute request ceiling, int(rpm * burst). -/
def maxRequestsOf (cfg : RateLimitConfig) : Int :=
  py_int ((cfg.requests_per_minute : Rat) * cfg.burst_multiplier)

/-- The burst-adjusted per-minute token ceiling, int(tpm * burst). -/
def maxTokensOf (cfg : RateLimitConfig) : Int :=
  py_int ((cfg.tokens_per_minute : Rat) * cfg.burst_multiplier)

/-- The minute window as _check_request_limit sees it after cleanup and
lazy rollover. -/
def mrolled (cfg : RateLimitConfig) (st : LimiterState) (id : String)
    (now : Rat) : RateLimitState :=
  roll 60 (minuteStateOf cfg (cleanup_windows now st) id now) now

/-- The state after the minute window has been written back. -/
def stAfterMinute (cfg : RateLimitConfig) (st : LimiterState) (id : String)
    (now : Rat) : LimiterState :=
  setMinuteState cfg (cleanup_windows now st) id (mrolled cfg st id now)

/-- The hour window as _check_request_limit sees it after cleanup and lazy
rollover. -/
def hrolled (cfg : RateLimitConfig) (st : LimiterState) (id : String)
    (now : Rat) : RateLimitState :=
  roll 3600 (hourStateOf cfg (stAfterMinute cfg st id now) id now) now

/-- The state after minute and hour windows have been written back. -/
def stAfterHour (cfg : RateLimitConfig) (st : LimiterState) (id : String)
    (now : Rat) : LimiterState :=
  setHourState cfg (stAfterMinute cfg st id now) id (hrolled cfg st id now)

/-- The state after _check_token_limit re-reads and re-stores the minute
window (a value-preserving write). -/
def stAfterToken (cfg : RateLimitConfig) (st : LimiterState) (id : String)
    (now : Rat) : LimiterState :=
  setMinuteState cfg (stAfterHour cfg st id now) id (mrolled cfg st id now)

theorem minuteStateOf_stAfterHour (cfg : RateLimitConfig) (st : LimiterState)
    (id : String) (now : Rat) :
    minuteStateOf cfg (stAfterHour cfg st id now) id now = mrolled cfg st id now := by
  unfold stAfterHour stAfterMinute
  rw [minuteStateOf_setHourState, minuteStateOf_setMinuteState]

theorem check_request_limit_eq_minute (cfg : RateLimitConfig) (st : LimiterState)
    (id : String) (now : Rat)
    (hm : (roll 60 (minuteStateOf cfg st id now) now).count ≥ maxRequestsOf cfg) :
    check_request_limit cfg st id now =
      (some { limit_type := "requests_per_minute"
              retry_after := some (max 0 (60 -
                (now - (roll 60 (minuteStateOf cfg st id now) now).window_start))) },
       setMinuteState cfg st id (roll 60 (minuteStateOf cfg st id now) now)) := by
  unfold maxRequestsOf at hm
  simp only [check_request_limit]
  rw [if_pos hm]

theorem check_request_limit_eq_hour (cfg : RateLimitConfig) (st : LimiterState)
    (id : String) (now : Rat)
    (hm : ¬ (roll 60 (minuteStateOf cfg st id now) now).count ≥ maxRequestsOf cfg)
    (hh : (roll 3600 (hourStateOf cfg (setMinuteState cfg st id
            (roll 60 (minuteStateOf cfg st id now) now)) id now) now).count ≥
          cfg.requests_per_hour) :
    check_request_limit cfg st id now =
      (some { limit_type := "requests_per_hour"
              retry_after := some (max 0 (3600 -
                (now - (roll 3600 (hourStateOf cfg (setMinuteState cfg st id
                  (roll 60 (minuteStateOf cfg st id now) now)) id now)
                  now).window_start))) },
       setHourState cfg (setMinuteState cfg st id
         (roll 60 (minuteStateOf cfg st id now) now)) id
         (roll 3600 (hourStateOf cfg (setMinuteState cfg st id
           (roll 60 (minuteStateOf cfg st id now) now)) id now) now)) := by
  unfold maxRequestsOf at hm
  simp only [check_request_limit]
  rw [if_neg hm, if_pos hh]

theorem check_request_limit_eq_ok (cfg : RateLimitConfig) (st : LimiterState)
    (id : String) (now : Rat)
    (hm : ¬ (roll 60 (minuteStateOf cfg st id now) now).count ≥ maxRequestsOf cfg)
    (hh : ¬ (roll 3600 (hourStateOf cfg (setMinuteState cfg st id
            (roll 60 (minuteStateOf cfg st id now) now)) id now) now).count ≥
          cfg.requests_per_hour) :
    check_request_limit cfg st id now =
      (none, setHourState cfg (setMinuteState cfg st id
        (roll 60 (minuteStateOf cfg st id now) now)) id
        (roll 3600 (hourStateOf cfg (setMinuteState cfg st id
          (roll 60 (minuteStateOf cfg st id now) now)) id now) now)) := by
  unfold maxRequestsOf at hm
  simp only [check_request_limit]
  rw [if_neg hm, if_neg hh]

theorem check_limit_memory_eq_conc (cfg : RateLimitConfig) (st : LimiterState)
    (id : String) (tok : Int) (now : Rat)
    (hc : concurrentOf cfg (cleanup_windows now st) id ≥ cfg.max_concurrent_requests) :
    check_limit_memory cfg st id tok now =
      (Except.error { limit_type := "concurrent", retry_after := some 1 },
       cleanup_windows now st) := by
  simp only [check_limit_memory, check_concurrent_limit]
  rw [if_pos hc]

theorem check_limit_memory_eq_minute (cfg : RateLimitConfig) (st : LimiterState)
    (id : String) (tok : Int) (now : Rat)
    (hc : ¬ concurrentOf cfg (cleanup_windows now st) id ≥ cfg.max_concurrent_requests)
    (hm : (mrolled cfg st id now).count ≥ maxRequestsOf cfg) :
    check_limit_memory cfg st id tok now =
      (Except.error { limit_type := "requests_per_minute"
                      retry_after := some (max 0 (60 -
                        (now - (mrolled cfg st id now).window_start))) },
       stAfterMinute cfg st id now) := by
  have h1 := check_request_limit_eq_minute cfg (cleanup_windows now st) id now hm
  simp only [check_limit_memory, check_concurrent_limit, if_neg hc, h1,
    mrolled, stAfterMinute]

theorem check_limit_memory_eq_hour (cfg : RateLimitConfig) (st : LimiterState)
    (id : String) (tok : Int) (now : Rat)
    (hc : ¬ concurrentOf cfg (cleanup_windows now st) id ≥ cfg.max_concurrent_requests)
    (hm : ¬ (mrolled cfg st id now).count ≥ maxRequestsOf cfg)
    (hh : (hrolled cfg st id now).count ≥ cfg.requests_per_hour) :
    check_limit_memory cfg st id tok now =
      (Except.error { limit_type := "requests_per_hour"
                      retry_after := some (max 0 (3600 -
                        (now - (hrolled cfg st id now).window_start))) },
       stAfterHour cfg st id now) := by
  have h1 := check_request_limit_eq_hour cfg (cleanup_windows now st) id now hm hh
  simp only [check_limit_memory, check_concurrent_limit, if_neg hc, h1,
    mrolled, hrolled, stAfterHour, stAfterMinute]

theorem check_limit_memory_eq_token (cfg : RateLimitConfig) (st : LimiterState)
    (id : String) (tok : Int) (now : Rat)
    (hc : ¬ concurrentOf cfg (cleanup_windows now st) id ≥ cfg.max_concurrent_requests)
    (hm : ¬ (mrolled cfg st id now).count ≥ maxRequestsOf cfg)
    (hh : ¬ (hrolled cfg st id now).count ≥ cfg.requests_per_hour)
    (ht : tok > 0)
    (htt : (mrolled cfg st id now).tokens + tok > maxTokensOf cfg) :
    check_limit_memory cfg st id tok now =
      (Except.error { limit_type := "tokens_per_minute"
                      retry_after := some (max 0 (60 -
                        (now - (mrolled cfg st id now).window_start))) },
       stAfterToken cfg st id now) := by
  have h1 := check_request_limit_eq_ok cfg (cleanup_windows now st) id now hm hh
  unfold mrolled maxTokensOf at htt
  simp only [check_limit_memory, check_concurrent_limit, if_neg hc, h1,
    if_pos ht, check_token_limit, minuteStateOf_setHourState,
    minuteStateOf_setMinuteState, if_pos htt,
    mrolled, hrolled, stAfterToken, stAfterHour, stAfterMinute]

theorem check_limit_memory_eq_ok_token (cfg : RateLimitConfig) (st : LimiterState)
    (id : String) (tok : Int) (now : Rat)
    (hc : ¬ concurrentOf cfg (cleanup_windows now st) id ≥ cfg.max_concurrent_requests)
    (hm : ¬ (mrolled cfg st id now).count ≥ maxRequestsOf cfg)
    (hh : ¬ (hrolled cfg st id now).count ≥ cfg.requests_per_hour)
    (ht : tok > 0)
    (htt : ¬ (mrolled cfg st id now).tokens + tok > maxTokensOf cfg) :
    check_limit_memory cfg st id tok now =
      (Except.ok true, stAfterToken cfg st id now) := by
  have h1 := check_request_limit_eq_ok cfg (cleanup_windows now st) id now hm hh
  unfold mrolled maxTokensOf at htt
  simp only [check_limit_memory, check_concurrent_limit, if_neg hc, h1,
    if_pos ht, check_token_limit, minuteStateOf_setHourState,
    minuteStateOf_setMinuteState, if_neg htt,
    mrolled, hrolled, stAfterToken, stAfterHour, stAfterMinute]

theorem check_limit_memory_eq_ok_notoken (cfg : RateLimitConfig) (st : LimiterState)
    (id : String) (tok : Int) (now : Rat)
    (hc : ¬ concurrentOf cfg (cleanup_windows now st) id ≥ cfg.max_concurrent_requests)
    (hm : ¬ (mrolled cfg st id now).count ≥ maxRequestsOf cfg)
    (hh : ¬ (hrolled cfg st id now).count ≥ cfg.requests_per_hour)
    (ht : ¬ tok > 0) :
    check_limit_memory cfg st id tok now =
      (Except.ok true, stAfterHour cfg st id now) := by
  have h1 := check_request_limit_eq_ok cfg (cleanup_windows now st) id now hm hh
  simp only [check_limit_memory, check_concurrent_limit, if_neg hc, h1,
    if_neg ht, mrolled, hrolled, stAfterHour, stAfterMinute]

/-! ## Miscellaneous facts -/

theorem rat_floor_eq (q : Rat) : q.floor = ⌊q⌋ := rfl

theorem pymod_nonneg (x m : Rat) (hm : 0 < m) : 0 ≤ pymod x m := by
  unfold pymod
  rw [rat_floor_eq]
  have h := Int.floor_le (x / m)
  have h2 : (⌊x / m⌋ : Rat) * m ≤ (x / m) * m := by
    exact mul_le_mul_of_nonneg_right h (le_of_lt hm)
  rw [div_mul_cancel₀ x (ne_of_gt hm)] at h2
  nlinarith

theorem pymod_lt (x m : Rat) (hm : 0 < m) : pymod x m < m := by
  unfold pymod
  rw [rat_floor_eq]
  have h := Int.lt_floor_add_one (x / m)
  have h2 : (x / m) * m < ((⌊x / m⌋ : Rat) + 1) * m := by
    exact mul_lt_mul_of_pos_right h hm
  rw [div_mul_cancel₀ x (ne_of_gt hm)] at h2
  nlinarith

theorem make_key_minute_ne_hour (i w1 w2 : String) :
    make_key i ("minute:" ++ w1) ≠ make_key i ("hour:" ++ w2) := by
  unfold make_key
  intro h
  have h2 : ("minute:" ++ w1).data = ("hour:" ++ w2).data := by
    have h1 := congrArg String.data h
    simp only [String.data_append, List.append_assoc, List.append_cancel_left_eq] at h1
    exact h1
  rw [String.data_append, String.data_append] at h2
  have h3 := congrArg List.head? h2
  simp at h3

/-- The limit_type of the rejection produced by a check, if any. -/
def limitTypeOf (r : Except RateLimitExceeded Bool × LimiterState) : Option String :=
  match r.1 with
  | Except.error e => some e.limit_type
  | Except.ok _ => none

/-! ## Concrete fixtures used by counterexamples and witnesses -/

/-- A Redis backend whose connection attempt failed (_ensure_connected
returned False). -/
def discBackend : RedisRateLimitBackend := { connected := false, store := fun _ => 0 }

/-- A connected Redis backend with an empty key space. -/
def connBackend : RedisRateLimitBackend := { connected := true, store := fun _ => 0 }

/-- defaultConfig with the distributed backend enabled. -/
def redisCfg : RateLimitConfig := { defaultConfig with use_redis := true }

/-- Identifier "u" saturated on the minute token budget (150000 tokens =
int(100000 * 1.5)) in a window that started at time 0. -/
def stTokSat : LimiterState :=
  { initState 0 with
      user_minute_state :=
        mapSet (fun _ => none) "u"
          { count := 0, tokens := 150000, window_start := 0, concurrent := 0 } }

/-- Identifier "u1" saturated on the minute request count (90 requests =
int(60 * 1.5)) in a window that started at time 0. -/
def stReqSat : LimiterState :=
  { initState 0 with
      user_minute_state :=
        mapSet (fun _ => none) "u1"
          { count := 90, tokens := 0, window_start := 0, concurrent := 0 } }

/-- Identifier "u" with ten concurrent requests in flight. -/
def stConc10 : LimiterState :=
  { initState 0 with concurrent_requests := mapSet (fun _ => none) "u" 10 }

/-- Identifier "u1" with a fresh minute window and an hour window holding
2 requests since time 0. -/
def stHour2 : LimiterState :=
  { initState 0 with
      user_minute_state :=
        mapSet (fun _ => none) "u1"
          { count := 0, tokens := 0, window_start := 0, concurrent := 0 }
      user_hour_state :=
        mapSet (fun _ => none) "u1"
          { count := 2, tokens := 0, window_start := 0, concurrent := 0 } }

/-- Identifier "u" at time 3600 with a minute window one period stale
(started at 3540) and an hour window one period stale (started at 0). -/
def stStale : LimiterState :=
  { initState 0 with
      user_minute_state :=
        mapSet (fun _ => none) "u"
          { count := 90, tokens := 5, window_start := 3540, concurrent := 0 }
      user_hour_state :=
        mapSet (fun _ => none) "u"
          { count := 1000, tokens := 7, window_start := 0, concurrent := 0 } }

/-- defaultConfig disabled, with require_user_id set. -/
def disabledRequireCfg : RateLimitConfig :=
  { defaultConfig with enabled := false, require_user_id := true }

/-! ## C10 -/

/-- C10: when the configuration flag enabled is False, check always returns
allowed and record, acquire_slot and release_slot are no-ops on the state
and backend — for all inputs, in particular when require_user_id is True
and neither user_id nor session_id is supplied, so no IdentityRequired
error is ever raised while the limiter is disabled. -/
theorem C10_disabled_noop (cfg : RateLimitConfig) (st : LimiterState)
    (b : RedisRateLimitBackend) (uid sid : Option String) (tok : Int)
    (now : Rat) (h : cfg.enabled = false) :
    check_limit cfg st b uid tok sid now = (Except.ok true, st) ∧
    record_request cfg st b uid tok sid now = (Except.ok (), st, b) ∧
    acquire_concurrent_slot cfg st b uid sid = (Except.ok (), st, b) ∧
    release_concurrent_slot cfg st b uid sid = (Except.ok (), st, b) := by
  refine ⟨?_, ?_, ?_, ?_⟩ <;>
    simp [check_limit, record_request, acquire_concurrent_slot,
      release_concurrent_slot, h]

/-- Witness for C10 at a disabled configuration that also demands a user
id, with no identity supplied. -/
theorem C10_disabled_noop_witness :
    disabledRequireCfg.enabled = false ∧
    (check_limit disabledRequireCfg (initState 0) discBackend none 0 none 0 =
       (Except.ok true, initState 0) ∧
     record_request disabledRequireCfg (initState 0) discBackend none 0 none 0 =
       (Except.ok (), initState 0, discBackend) ∧
     acquire_concurrent_slot disabledRequireCfg (initState 0) discBackend none none =
       (Except.ok (), initState 0, discBackend) ∧
     release_concurrent_slot disabledRequireCfg (initState 0) discBackend none none =
       (Except.ok (), initState 0, discBackend)) :=
  ⟨rfl, C10_disabled_noop disabledRequireCfg (initState 0) discBackend none none 0 0 rfl⟩

/-! ## C8 -/

/-- Step 2 onward of the resolution policy as the specification words it:
no usable user id is available; fail if one is required, else partition by
session when session fallback is enabled and a session id is present, else
fall back to the shared anonymous bucket. -/
def resolveSpecNoUser (cfg : RateLimitConfig) (session_id : Option String) :
    Except RateLimitExceeded String :=
  if cfg.require_user_id then
    Except.error { limit_type := "authentication", retry_after := none }
  else
    match session_id with
    | some s =>
      if cfg.fallback_to_session && s != "" then Except.ok ("session:" ++ s)
      else Except.ok "anonymous"
    | none => Except.ok "anonymous"

/-- The identifier-resolution policy exactly as the specification words it
(spec 4.1, steps 1-4), written independently of _get_identifier.
"Present" is the source's notion of presence, Python truthiness: supplied
and non-empty (a supplied empty string counts as absent). -/
def resolveSpec (cfg : RateLimitConfig) :
    Option String → Option String → Except RateLimitExceeded String
  | some u, sid => if u = "" then resolveSpecNoUser cfg sid else Except.ok u
  | none, sid => resolveSpecNoUser cfg sid

/-- C8: identifier resolution follows the four-step policy of the spec:
user_id when present, else IdentityRequired when a user id is required,
else "session:" + session_id when session fallback is enabled and a
session id is present, else the shared anonymous bucket. -/
theorem C8_identifier_policy (cfg : RateLimitConfig)
    (uid sid : Option String) :
    get_identifier cfg uid sid = resolveSpec cfg uid sid := by
  cases uid with
  | none =>
    cases sid with
    | none =>
      simp [get_identifier, resolveSpec, resolveSpecNoUser, truthy]
    | some s =>
      by_cases hs : s = "" <;>
        simp [get_identifier, resolveSpec, resolveSpecNoUser, truthy, hs]
  | some u =>
    by_cases hu : u = ""
    · cases sid with
      | none =>
        simp [get_identifier, resolveSpec, resolveSpecNoUser, truthy, hu]
      | some s =>
        by_cases hs : s = "" <;>
          simp [get_identifier, resolveSpec, resolveSpecNoUser, truthy, hu, hs]
    · simp [get_identifier, resolveSpec, resolveSpecNoUser, truthy, hu]

/-! ## Routing helpers and C4 -/

/-- A truthy user id resolves to itself under every configuration. -/
theorem get_identifier_some (cfg : RateLimitConfig) (u : String) (hu : u ≠ "")
    (sid : Option String) :
    get_identifier cfg (some u) sid = Except.ok u := by
  simp [get_identifier, truthy, hu]

/-- Routing: enabled, non-redis check_limit is check_limit_memory on the
resolved identifier. -/
theorem check_limit_routes_memory (cfg : RateLimitConfig) (st : LimiterState)
    (b : RedisRateLimitBackend) (uid sid : Option String) (tok : Int)
    (now : Rat) (i : String) (h1 : cfg.enabled = true)
    (h2 : cfg.use_redis = false)
    (hres : get_identifier cfg uid sid = Except.ok i) :
    check_limit cfg st b uid tok sid now = check_limit_memory cfg st i tok now := by
  simp [check_limit, h1, h2, hres]

/-- Routing: enabled, redis check_limit is check_limit_redis on the
resolved identifier, with the local state untouched. -/
theorem check_limit_routes_redis (cfg : RateLimitConfig) (st : LimiterState)
    (b : RedisRateLimitBackend) (uid sid : Option String) (tok : Int)
    (now : Rat) (i : String) (h1 : cfg.enabled = true)
    (h2 : cfg.use_redis = true)
    (hres : get_identifier cfg uid sid = Except.ok i) :
    check_limit cfg st b uid tok sid now = (check_limit_redis cfg b i tok now, st) := by
  simp [check_limit, h1, h2, hres]

/-! ## C4 -/

/-- C4: with the distributed backend enabled but its connection failed,
check and record complete without raising any infrastructure error
(fail-open) — but contrary to the claim the decision is NOT made against
the Local Window Store: the Redis check path runs against the backend's
sentinel zero counts and admits identifier "u1" even though the local
minute window is saturated at 90/90 (second conjunct: the local-path
decision at the very same state is a requests_per_minute rejection), and
record leaves both the local state and the backend untouched, accounting
nowhere. -/
theorem C4_redis_failure_no_local_fallback :
    check_limit redisCfg stReqSat discBackend (some "u1") 0 none 0 =
      (Except.ok true, stReqSat) ∧
    (check_limit defaultConfig stReqSat discBackend (some "u1") 0 none 0).1 =
      Except.error { limit_type := "requests_per_minute", retry_after := some 60 } ∧
    record_request redisCfg stReqSat discBackend (some "u1") 5 none 0 =
      (Except.ok (), stReqSat, discBackend) := by
  have hid1 := get_identifier_some redisCfg "u1" (by decide) none
  have hid2 := get_identifier_some defaultConfig "u1" (by decide) none
  refine ⟨?_, ?_, ?_⟩
  · rw [check_limit_routes_redis redisCfg stReqSat discBackend (some "u1") none 0 0 "u1" rfl rfl hid1]
    norm_num [check_limit_redis, RedisRateLimitBackend.get_count,
      RedisRateLimitBackend.get_concurrent, py_int, rat_floor_eq, redisCfg,
      defaultConfig, discBackend]
  · rw [check_limit_routes_memory defaultConfig stReqSat discBackend (some "u1") none 0 0 "u1" rfl rfl hid2]
    rw [check_limit_memory_eq_minute defaultConfig stReqSat "u1" 0 0
      (by norm_num [concurrentOf, cleanup_windows, stReqSat, initState, defaultConfig, mapSet])
      (by norm_num [mrolled, maxRequestsOf, minuteStateOf, cleanup_windows,
        stReqSat, initState, defaultConfig, mapSet, roll, py_int, rat_floor_eq, freshState])]
    norm_num [mrolled, minuteStateOf, cleanup_windows, stReqSat, initState,
      defaultConfig, mapSet, roll, freshState]
  · simp only [record_request, hid1]
    norm_num [redisCfg, defaultConfig, RedisRateLimitBackend.increment, discBackend]

/-! ## C1 -/

/-- C1 counterexample: identifier "u" saturated the minute token budget in
a window started at time 0; after a simulated clock advance of exactly one
full period (check at now = 60, estimated_tokens = 1) the check is still
rejected with tokens_per_minute — not admitted with counters at zero as
the claim states — because the lazy rollover zeroes only the request
count: the post-check state still holds 150000 minute tokens. -/
theorem C1_counterexample :
    (check_limit defaultConfig stTokSat discBackend (some "u") 1 none 60).1 =
      Except.error { limit_type := "tokens_per_minute", retry_after := some 60 } ∧
    obs_minute defaultConfig
      (check_limit defaultConfig stTokSat discBackend (some "u") 1 none 60).2 "u" =
      (0, 150000) := by
  have hid := get_identifier_some defaultConfig "u" (by decide) none
  rw [check_limit_routes_memory defaultConfig stTokSat discBackend (some "u")
    none 1 60 "u" rfl rfl hid]
  rw [check_limit_memory_eq_token defaultConfig stTokSat "u" 1 60
    (by norm_num [concurrentOf, cleanup_windows, stTokSat, initState,
      defaultConfig, mapSet])
    (by norm_num [mrolled, maxRequestsOf, minuteStateOf, cleanup_windows,
      stTokSat, initState, defaultConfig, mapSet, roll, py_int, rat_floor_eq,
      freshState])
    (by norm_num [hrolled, hourStateOf, stAfterMinute, setMinuteState,
      cleanup_windows, stTokSat, initState, defaultConfig, mapSet, roll,
      freshState])
    (by norm_num)
    (by norm_num [mrolled, maxTokensOf, minuteStateOf, cleanup_windows,
      stTokSat, initState, defaultConfig, mapSet, roll, py_int, rat_floor_eq,
      freshState])]
  constructor
  · norm_num [mrolled, minuteStateOf, cleanup_windows, stTokSat, initState,
      defaultConfig, mapSet, roll, freshState]
  · norm_num [obs_minute, stAfterToken, stAfterHour, stAfterMinute,
      setMinuteState, setHourState, mrolled, hrolled, minuteStateOf,
      hourStateOf, cleanup_windows, stTokSat, initState, defaultConfig,
      mapSet, roll, freshState]

/-- C1 (amended): on a stale observation (now - window_start >= period) the
lazy rollover zeroes the window's request count and sets window_start :=
now before the limits are evaluated, for the minute and the hour window
alike — but it does not zero the token counter, which survives rollover
(it is discarded only when cleanup drops the whole stale entry).
Consequently, after a simulated clock advance of one full minute period, a
previously request-count-saturated identifier passes check again with its
minute request count observed at zero (a token-saturated identifier does
not, as the counterexample shows). -/
theorem C1_amended (cfg : RateLimitConfig) (st : LimiterState) (id : String)
    (now : Rat) :
    (now - (minuteStateOf cfg (cleanup_windows now st) id now).window_start ≥ 60 →
      (mrolled cfg st id now).count = 0 ∧
      (mrolled cfg st id now).window_start = now ∧
      (mrolled cfg st id now).tokens =
        (minuteStateOf cfg (cleanup_windows now st) id now).tokens) ∧
    (now - (hourStateOf cfg (stAfterMinute cfg st id now) id now).window_start ≥ 3600 →
      (hrolled cfg st id now).count = 0 ∧
      (hrolled cfg st id now).window_start = now ∧
      (hrolled cfg st id now).tokens =
        (hourStateOf cfg (stAfterMinute cfg st id now) id now).tokens) ∧
    ((check_limit defaultConfig stReqSat discBackend (some "u1") 0 none 60).1 =
       Except.ok true ∧
     obs_minute defaultConfig
       (check_limit defaultConfig stReqSat discBackend (some "u1") 0 none 60).2 "u1" =
       (0, 0)) := by
  refine ⟨?_, ?_, ?_⟩
  · intro h
    simp [mrolled, roll, if_pos h]
  · intro h
    simp [hrolled, roll, if_pos h]
  · have hid := get_identifier_some defaultConfig "u1" (by decide) none
    rw [check_limit_routes_memory defaultConfig stReqSat discBackend (some "u1")
      none 0 60 "u1" rfl rfl hid]
    rw [check_limit_memory_eq_ok_notoken defaultConfig stReqSat "u1" 0 60
      (by norm_num [concurrentOf, cleanup_windows, stReqSat, initState,
        defaultConfig, mapSet])
      (by norm_num [mrolled, maxRequestsOf, minuteStateOf, cleanup_windows,
        stReqSat, initState, defaultConfig, mapSet, roll, py_int, rat_floor_eq,
        freshState])
      (by norm_num [hrolled, hourStateOf, stAfterMinute, setMinuteState,
        cleanup_windows, stReqSat, initState, defaultConfig, mapSet, roll,
        freshState])
      (by norm_num)]
    constructor
    · rfl
    · norm_num [obs_minute, stAfterHour, stAfterMinute, setMinuteState,
        setHourState, mrolled, hrolled, minuteStateOf, hourStateOf,
        cleanup_windows, stReqSat, initState, defaultConfig, mapSet, roll,
        freshState]

/-- Witness for C1 (amended) at a state where both the minute window (one
period stale) and the hour window (one period stale) roll over. -/
theorem C1_amended_witness :
    ((mrolled defaultConfig stStale "u" 3600).count = 0 ∧
     (mrolled defaultConfig stStale "u" 3600).window_start = 3600 ∧
     (mrolled defaultConfig stStale "u" 3600).tokens =
       (minuteStateOf defaultConfig (cleanup_windows 3600 stStale) "u" 3600).tokens) ∧
    ((hrolled defaultConfig stStale "u" 3600).count = 0 ∧
     (hrolled defaultConfig stStale "u" 3600).window_start = 3600 ∧
     (hrolled defaultConfig stStale "u" 3600).tokens =
       (hourStateOf defaultConfig (stAfterMinute defaultConfig stStale "u" 3600) "u" 3600).tokens) :=
  ⟨(C1_amended defaultConfig stStale "u" 3600).1
     (by norm_num [minuteStateOf, cleanup_windows, stStale, initState,
       defaultConfig, mapSet, freshState]),
   (C1_amended defaultConfig stStale "u" 3600).2.1
     (by norm_num [hourStateOf, stAfterMinute, setMinuteState, cleanup_windows,
       stStale, initState, defaultConfig, mapSet, freshState])⟩

/-! ## C2 -/

/-- defaultConfig with an hour ceiling of 2. -/
def hourCfg : RateLimitConfig := { defaultConfig with requests_per_hour := 2 }

/-- A connected Redis backend every counter of which reads 10. -/
def bTen : RedisRateLimitBackend := { connected := true, store := fun _ => 10 }

/-- C2 counterexample: with the distributed backend active the minute
token-budget window is never evaluated: a check estimating a billion
tokens is admitted (first conjunct), while the local backend at the very
same (empty) state rejects it with tokens_per_minute (second conjunct). -/
theorem C2_counterexample :
    (check_limit redisCfg (initState 0) connBackend (some "u") 1000000000 none 0).1 =
      Except.ok true ∧
    (check_limit defaultConfig (initState 0) discBackend (some "u") 1000000000 none 0).1 =
      Except.error { limit_type := "tokens_per_minute", retry_after := some 60 } := by
  have hid := get_identifier_some redisCfg "u" (by decide) none
  have hid2 := get_identifier_some defaultConfig "u" (by decide) none
  constructor
  · rw [check_limit_routes_redis redisCfg (initState 0) connBackend (some "u")
      none 1000000000 0 "u" rfl rfl hid]
    norm_num [check_limit_redis, RedisRateLimitBackend.get_count,
      RedisRateLimitBackend.get_concurrent, py_int, rat_floor_eq, redisCfg,
      defaultConfig, connBackend]
  · rw [check_limit_routes_memory defaultConfig (initState 0) discBackend
      (some "u") none 1000000000 0 "u" rfl rfl hid2]
    rw [check_limit_memory_eq_token defaultConfig (initState 0) "u" 1000000000 0
      (by norm_num [concurrentOf, cleanup_windows, initState, defaultConfig, mapSet])
      (by norm_num [mrolled, maxRequestsOf, minuteStateOf, cleanup_windows,
        initState, defaultConfig, mapSet, roll, py_int, rat_floor_eq, freshState])
      (by norm_num [hrolled, hourStateOf, stAfterMinute, setMinuteState,
        cleanup_windows, initState, defaultConfig, mapSet, roll, freshState])
      (by norm_num)
      (by norm_num [mrolled, maxTokensOf, minuteStateOf, cleanup_windows,
        initState, defaultConfig, mapSet, roll, py_int, rat_floor_eq, freshState])]
    norm_num [mrolled, minuteStateOf, cleanup_windows, initState, defaultConfig,
      mapSet, roll, freshState]

/-- C2 (amended): with the local backend the limits are evaluated in the
order (a) concurrency cap, (b) minute request window, (c) hour request
window, (d) minute token budget — (d) only when estimated_tokens > 0 —
and the first exceeded limit yields the corresponding typed rejection,
with no rejection when none is exceeded; the distributed backend evaluates
only (a), (b), (c): it never produces a token-budget rejection. -/
theorem C2_amended (cfg : RateLimitConfig) (st : LimiterState) (id : String)
    (tok : Int) (now : Rat) :
    (concurrentOf cfg (cleanup_windows now st) id ≥ cfg.max_concurrent_requests →
      limitTypeOf (check_limit_memory cfg st id tok now) = some "concurrent") ∧
    (¬ concurrentOf cfg (cleanup_windows now st) id ≥ cfg.max_concurrent_requests →
      (mrolled cfg st id now).count ≥ maxRequestsOf cfg →
      limitTypeOf (check_limit_memory cfg st id tok now) = some "requests_per_minute") ∧
    (¬ concurrentOf cfg (cleanup_windows now st) id ≥ cfg.max_concurrent_requests →
      ¬ (mrolled cfg st id now).count ≥ maxRequestsOf cfg →
      (hrolled cfg st id now).count ≥ cfg.requests_per_hour →
      limitTypeOf (check_limit_memory cfg st id tok now) = some "requests_per_hour") ∧
    (¬ concurrentOf cfg (cleanup_windows now st) id ≥ cfg.max_concurrent_requests →
      ¬ (mrolled cfg st id now).count ≥ maxRequestsOf cfg →
      ¬ (hrolled cfg st id now).count ≥ cfg.requests_per_hour →
      tok > 0 →
      (mrolled cfg st id now).tokens + tok > maxTokensOf cfg →
      limitTypeOf (check_limit_memory cfg st id tok now) = some "tokens_per_minute") ∧
    (¬ concurrentOf cfg (cleanup_windows now st) id ≥ cfg.max_concurrent_requests →
      ¬ (mrolled cfg st id now).count ≥ maxRequestsOf cfg →
      ¬ (hrolled cfg st id now).count ≥ cfg.requests_per_hour →
      (tok > 0 → ¬ (mrolled cfg st id now).tokens + tok > maxTokensOf cfg) →
      (check_limit_memory cfg st id tok now).1 = Except.ok true) ∧
    (∀ (b : RedisRateLimitBackend) (e : RateLimitExceeded),
      check_limit_redis cfg b id tok now = Except.error e →
      e.limit_type ≠ "tokens_per_minute") := by
  refine ⟨?_, ?_, ?_, ?_, ?_, ?_⟩
  · intro hc
    rw [check_limit_memory_eq_conc cfg st id tok now hc]
    rfl
  · intro hc hm
    rw [check_limit_memory_eq_minute cfg st id tok now hc hm]
    rfl
  · intro hc hm hh
    rw [check_limit_memory_eq_hour cfg st id tok now hc hm hh]
    rfl
  · intro hc hm hh ht htt
    rw [check_limit_memory_eq_token cfg st id tok now hc hm hh ht htt]
    rfl
  · intro hc hm hh htok
    by_cases ht : tok > 0
    · rw [check_limit_memory_eq_ok_token cfg st id tok now hc hm hh ht (htok ht)]
    · rw [check_limit_memory_eq_ok_notoken cfg st id tok now hc hm hh ht]
  · intro b e he
    simp only [check_limit_redis] at he
    split_ifs at he with h1 h2 h3 <;>
      (injection he with h4; rw [← h4]; simp)

/-- Witness for C2 (amended), exercising each of the five local branches
and the distributed branch at concrete saturated states. -/
theorem C2_amended_witness :
    limitTypeOf (check_limit_memory defaultConfig stConc10 "u" 0 0) =
      some "concurrent" ∧
    limitTypeOf (check_limit_memory defaultConfig stReqSat "u1" 0 0) =
      some "requests_per_minute" ∧
    limitTypeOf (check_limit_memory hourCfg stHour2 "u1" 0 0) =
      some "requests_per_hour" ∧
    limitTypeOf (check_limit_memory defaultConfig stTokSat "u" 1 0) =
      some "tokens_per_minute" ∧
    (check_limit_memory defaultConfig (initState 0) "u" 1 0).1 = Except.ok true ∧
    ({ limit_type := "concurrent", retry_after := some 1 } :
      RateLimitExceeded).limit_type ≠ "tokens_per_minute" := by
  refine ⟨?_, ?_, ?_, ?_, ?_, ?_⟩
  · exact (C2_amended defaultConfig stConc10 "u" 0 0).1
      (by norm_num [concurrentOf, cleanup_windows, stConc10, initState,
        defaultConfig, mapSet])
  · exact (C2_amended defaultConfig stReqSat "u1" 0 0).2.1
      (by norm_num [concurrentOf, cleanup_windows, stReqSat, initState,
        defaultConfig, mapSet])
      (by norm_num [mrolled, maxRequestsOf, minuteStateOf, cleanup_windows,
        stReqSat, initState, defaultConfig, mapSet, roll, py_int, rat_floor_eq,
        freshState])
  · exact (C2_amended hourCfg stHour2 "u1" 0 0).2.2.1
      (by norm_num [concurrentOf, cleanup_windows, stHour2, initState,
        hourCfg, defaultConfig, mapSet])
      (by norm_num [mrolled, maxRequestsOf, minuteStateOf, cleanup_windows,
        stHour2, initState, hourCfg, defaultConfig, mapSet, roll, py_int,
        rat_floor_eq, freshState])
      (by norm_num [hrolled, hourStateOf, stAfterMinute, setMinuteState,
        minuteStateOf, cleanup_windows, stHour2, initState, hourCfg,
        defaultConfig, mapSet, roll, freshState])
  · exact (C2_amended defaultConfig stTokSat "u" 1 0).2.2.2.1
      (by norm_num [concurrentOf, cleanup_windows, stTokSat, initState,
        defaultConfig, mapSet])
      (by norm_num [mrolled, maxRequestsOf, minuteStateOf, cleanup_windows,
        stTokSat, initState, defaultConfig, mapSet, roll, py_int, rat_floor_eq,
        freshState])
      (by norm_num [hrolled, hourStateOf, stAfterMinute, setMinuteState,
        minuteStateOf, cleanup_windows, stTokSat, initState, defaultConfig,
        mapSet, roll, freshState])
      (by norm_num)
      (by norm_num [mrolled, maxTokensOf, minuteStateOf, cleanup_windows,
        stTokSat, initState, defaultConfig, mapSet, roll, py_int, rat_floor_eq,
        freshState])
  · exact (C2_amended defaultConfig (initState 0) "u" 1 0).2.2.2.2.1
      (by norm_num [concurrentOf, cleanup_windows, initState, defaultConfig, mapSet])
      (by norm_num [mrolled, maxRequestsOf, minuteStateOf, cleanup_windows,
        initState, defaultConfig, mapSet, roll, py_int, rat_floor_eq, freshState])
      (by norm_num [hrolled, hourStateOf, stAfterMinute, setMinuteState,
        minuteStateOf, cleanup_windows, initState, defaultConfig, mapSet, roll,
        freshState])
      (by
        intro h
        norm_num [mrolled, maxTokensOf, minuteStateOf, cleanup_windows,
          initState, defaultConfig, mapSet, roll, py_int, rat_floor_eq, freshState])
  · exact (C2_amended defaultConfig (initState 0) "u" 0 0).2.2.2.2.2 bTen
      { limit_type := "concurrent", retry_after := some 1 }
      (by norm_num [check_limit_redis, RedisRateLimitBackend.get_count,
        RedisRateLimitBackend.get_concurrent, py_int, rat_floor_eq,
        defaultConfig, bTen])

/-! ## C3 -/

/-- defaultConfig demanding a user id. -/
def requireCfg : RateLimitConfig := { defaultConfig with require_user_id := true }

theorem storeSet_same (f : String → Int) (k : String) (v : Int) :
    storeSet f k v k = v := by
  simp [storeSet]

theorem storeSet_other (f : String → Int) (k : String) (v : Int) (x : String)
    (h : x ≠ k) : storeSet f k v x = f x := by
  simp [storeSet, h]

/-- C3 counterexample: record DOES reject for some inputs — with
require_user_id set and no identity supplied the identifier resolution
inside record_request raises the authentication error before any
accounting happens. -/
theorem C3_counterexample :
    record_request requireCfg (initState 0) discBackend none 5 none 0 =
      (Except.error { limit_type := "authentication", retry_after := none },
       initState 0, discBackend) := by
  simp [record_request, get_identifier, truthy, requireCfg, defaultConfig]

/-- C3 (amended): record rejects exactly when the limiter is enabled and
identifier resolution fails (IdentityRequired); once an identifier
resolves it never rejects.  With the local backend it unconditionally
increments the minute and hour request counts by 1 and token counts by
tokens_used; with the connected distributed backend it increments the
minute and hour request counters by 1 but records no tokens at all — the
backend state does not depend on tokens_used and the local state is left
untouched. -/
theorem C3_amended (cfg : RateLimitConfig) (st : LimiterState)
    (b : RedisRateLimitBackend) (uid sid : Option String) (tok : Int)
    (now : Rat) :
    ((record_request cfg st b uid tok sid now).1 = Except.ok () ↔
      (cfg.enabled = false ∨ ∃ i, get_identifier cfg uid sid = Except.ok i)) ∧
    (∀ i, cfg.enabled = true → cfg.use_redis = false →
      get_identifier cfg uid sid = Except.ok i →
      (minuteStateOf cfg (record_request cfg st b uid tok sid now).2.1 i now).count =
        (minuteStateOf cfg st i now).count + 1 ∧
      (minuteStateOf cfg (record_request cfg st b uid tok sid now).2.1 i now).tokens =
        (minuteStateOf cfg st i now).tokens + tok ∧
      (hourStateOf cfg (record_request cfg st b uid tok sid now).2.1 i now).count =
        (hourStateOf cfg st i now).count + 1 ∧
      (hourStateOf cfg (record_request cfg st b uid tok sid now).2.1 i now).tokens =
        (hourStateOf cfg st i now).tokens + tok) ∧
    (∀ i, cfg.enabled = true → cfg.use_redis = true → b.connected = true →
      get_identifier cfg uid sid = Except.ok i →
      ((record_request cfg st b uid tok sid now).2.2).store
          (make_key i ("minute:" ++ toString (now / 60).floor)) =
        b.store (make_key i ("minute:" ++ toString (now / 60).floor)) + 1 ∧
      ((record_request cfg st b uid tok sid now).2.2).store
          (make_key i ("hour:" ++ toString (now / 3600).floor)) =
        b.store (make_key i ("hour:" ++ toString (now / 3600).floor)) + 1 ∧
      (record_request cfg st b uid tok sid now).2.1 = st ∧
      ∀ tok2, (record_request cfg st b uid tok sid now).2.2 =
        (record_request cfg st b uid tok2 sid now).2.2) := by
  refine ⟨?_, ?_, ?_⟩
  · by_cases h : cfg.enabled = false
    · simp [record_request, h]
    · have h1 : cfg.enabled = true := by
        cases hcE : cfg.enabled
        · exact absurd hcE h
        · rfl
      cases hres : get_identifier cfg uid sid with
      | error e => simp [record_request, h1, hres]
      | ok i =>
        by_cases hr : cfg.use_redis <;>
          simp [record_request, h1, hres, hr]
  · intro i h1 h2 hres
    simp [record_request, h1, h2, hres, minuteStateOf_setHourState,
      minuteStateOf_setMinuteState, hourStateOf_setHourState,
      hourStateOf_setMinuteState]
  · intro i h1 h2 hb hres
    have hmw := make_key_minute_ne_hour i (toString (now / 60).floor)
      (toString (now / 3600).floor)
    refine ⟨?_, ?_, ?_, ?_⟩ <;>
      simp [record_request, h1, h2, hb, hres,
        RedisRateLimitBackend.increment, storeSet_same,
        storeSet_other _ _ _ _ (Ne.symm hmw), storeSet_other _ _ _ _ hmw, hmw]

/-- Witness for C3 (amended): a concrete record on the local backend
(counters +1 / +5) and on the connected distributed backend (request
counters +1, backend independent of tokens_used). -/
theorem C3_amended_witness :
    ((minuteStateOf defaultConfig
        (record_request defaultConfig (initState 0) discBackend (some "u") 5 none 0).2.1
        "u" 0).count =
      (minuteStateOf defaultConfig (initState 0) "u" 0).count + 1 ∧
     (minuteStateOf defaultConfig
        (record_request defaultConfig (initState 0) discBackend (some "u") 5 none 0).2.1
        "u" 0).tokens =
      (minuteStateOf defaultConfig (initState 0) "u" 0).tokens + 5 ∧
     (hourStateOf defaultConfig
        (record_request defaultConfig (initState 0) discBackend (some "u") 5 none 0).2.1
        "u" 0).count =
      (hourStateOf defaultConfig (initState 0) "u" 0).count + 1 ∧
     (hourStateOf defaultConfig
        (record_request defaultConfig (initState 0) discBackend (some "u") 5 none 0).2.1
        "u" 0).tokens =
      (hourStateOf defaultConfig (initState 0) "u" 0).tokens + 5) ∧
    (((record_request redisCfg (initState 0) connBackend (some "u") 5 none 0).2.2).store
        (make_key "u" ("minute:" ++ toString ((0 : Rat) / 60).floor)) =
      connBackend.store (make_key "u" ("minute:" ++ toString ((0 : Rat) / 60).floor)) + 1 ∧
     ((record_request redisCfg (initState 0) connBackend (some "u") 5 none 0).2.2).store
        (make_key "u" ("hour:" ++ toString ((0 : Rat) / 3600).floor)) =
      connBackend.store (make_key "u" ("hour:" ++ toString ((0 : Rat) / 3600).floor)) + 1 ∧
     (record_request redisCfg (initState 0) connBackend (some "u") 5 none 0).2.1 =
       initState 0 ∧
     ∀ tok2, (record_request redisCfg (initState 0) connBackend (some "u") 5 none 0).2.2 =
       (record_request redisCfg (initState 0) connBackend (some "u") tok2 none 0).2.2) :=
  ⟨(C3_amended defaultConfig (initState 0) discBackend (some "u") none 5 0).2.1
     "u" rfl rfl (get_identifier_some defaultConfig "u" (by decide) none),
   (C3_amended redisCfg (initState 0) connBackend (some "u") none 5 0).2.2
     "u" rfl rfl rfl (get_identifier_some redisCfg "u" (by decide) none)⟩

/-! ## C5 -/

/-- Identifier "u1" with k requests recorded in both the minute and the
hour window, both windows anchored at time 0. -/
def stK (k : Int) : LimiterState :=
  { initState 0 with
      user_minute_state :=
        mapSet (fun _ => none) "u1"
          { count := k, tokens := 0, window_start := 0, concurrent := 0 }
      user_hour_state :=
        mapSet (fun _ => none) "u1"
          { count := k, tokens := 0, window_start := 0, concurrent := 0 } }

/-- One admitted-and-recorded request for "u1" under the default
configuration at time 0 (check, then record). -/
def checkThenRecord (st : LimiterState) : LimiterState :=
  (record_request defaultConfig
    (check_limit defaultConfig st discBackend (some "u1") 0 none 0).2
    discBackend (some "u1") 0 none 0).2.1

/-- The limiter state after n admitted-and-recorded requests for "u1". -/
def afterN : Nat → LimiterState
  | 0 => initState 0
  | Nat.succ n => checkThenRecord (afterN n)

theorem check_stK (k : Int) (h90 : k < 90) :
    check_limit defaultConfig (stK k) discBackend (some "u1") 0 none 0 =
      (Except.ok true, stAfterHour defaultConfig (stK k) "u1" 0) := by
  rw [check_limit_routes_memory defaultConfig (stK k) discBackend (some "u1")
    none 0 0 "u1" rfl rfl (get_identifier_some defaultConfig "u1" (by decide) none)]
  refine check_limit_memory_eq_ok_notoken defaultConfig (stK k) "u1" 0 0 ?_ ?_ ?_ ?_
  · norm_num [concurrentOf, cleanup_windows, stK, initState, defaultConfig, mapSet]
  · have : (mrolled defaultConfig (stK k) "u1" 0).count = k := by
      norm_num [mrolled, minuteStateOf, cleanup_windows, stK, initState,
        defaultConfig, mapSet, roll, freshState]
    rw [this]
    have h2 : maxRequestsOf defaultConfig = 90 := by
      norm_num [maxRequestsOf, defaultConfig, py_int, rat_floor_eq]
    rw [h2]
    omega
  · have : (hrolled defaultConfig (stK k) "u1" 0).count = k := by
      norm_num [hrolled, hourStateOf, stAfterMinute, setMinuteState,
        minuteStateOf, cleanup_windows, stK, initState, defaultConfig, mapSet,
        roll, freshState]
    rw [this]
    norm_num [defaultConfig]
    omega
  · norm_num

theorem checkThenRecord_stK (k : Int) (h90 : k < 90) :
    checkThenRecord (stK k) = stK (k + 1) := by
  unfold checkThenRecord
  rw [check_stK k h90]
  have hid := get_identifier_some defaultConfig "u1" (by decide) none
  simp only [record_request, hid]
  norm_num [defaultConfig]
  apply LimiterState.ext
  all_goals
    first
      | (funext x
         by_cases hx : x = "u1" <;>
           norm_num [setHourState, setMinuteState, mapSet, hourStateOf,
             minuteStateOf, stAfterHour, stAfterMinute, mrolled, hrolled, roll,
             cleanup_windows, stK, initState, freshState, defaultConfig, hx])
      | norm_num [setHourState, setMinuteState, hourStateOf, minuteStateOf,
          stAfterHour, stAfterMinute, mrolled, hrolled, roll, cleanup_windows,
          stK, initState, freshState, defaultConfig]

theorem check_init :
    check_limit defaultConfig (initState 0) discBackend (some "u1") 0 none 0 =
      (Except.ok true, stAfterHour defaultConfig (initState 0) "u1" 0) := by
  rw [check_limit_routes_memory defaultConfig (initState 0) discBackend (some "u1")
    none 0 0 "u1" rfl rfl (get_identifier_some defaultConfig "u1" (by decide) none)]
  refine check_limit_memory_eq_ok_notoken defaultConfig (initState 0) "u1" 0 0 ?_ ?_ ?_ ?_
  · norm_num [concurrentOf, cleanup_windows, initState, defaultConfig, mapSet]
  · norm_num [mrolled, maxRequestsOf, minuteStateOf, cleanup_windows, initState,
      defaultConfig, mapSet, roll, py_int, rat_floor_eq, freshState]
  · norm_num [hrolled, hourStateOf, stAfterMinute, setMinuteState,
      minuteStateOf, cleanup_windows, initState, defaultConfig, mapSet, roll,
      freshState]
  · norm_num

theorem checkThenRecord_init : checkThenRecord (initState 0) = stK 1 := by
  unfold checkThenRecord
  rw [check_init]
  have hid := get_identifier_some defaultConfig "u1" (by decide) none
  simp only [record_request, hid]
  norm_num [defaultConfig]
  apply LimiterState.ext
  all_goals
    first
      | (funext x
         by_cases hx : x = "u1" <;>
           norm_num [setHourState, setMinuteState, mapSet, hourStateOf,
             minuteStateOf, stAfterHour, stAfterMinute, mrolled, hrolled, roll,
             cleanup_windows, stK, initState, freshState, defaultConfig, hx])
      | norm_num [setHourState, setMinuteState, hourStateOf, minuteStateOf,
          stAfterHour, stAfterMinute, mrolled, hrolled, roll, cleanup_windows,
          stK, initState, freshState, defaultConfig]

theorem afterN_eq (n : Nat) (hn : n + 1 ≤ 90) :
    afterN (n + 1) = stK ((n : Int) + 1) := by
  induction n with
  | zero =>
    show checkThenRecord (afterN 0) = stK 1
    exact checkThenRecord_init
  | succ m ih =>
    have hm : m + 1 ≤ 90 := by omega
    show checkThenRecord (afterN (m + 1)) = stK ((m : Int) + 1 + 1)
    rw [ih hm]
    have : ((m : Int) + 1) < 90 := by
      omega
    rw [checkThenRecord_stK ((m : Int) + 1) this]

/-- C5 counterexample: the hour window's ceiling is NOT multiplied by the
burst multiplier.  With requests_per_hour = 2 and burst_multiplier = 1.5
the claimed effective hour ceiling is int(2 * 1.5) = 3, yet a check with
hour count 2 is already rejected with requests_per_hour. -/
theorem C5_counterexample :
    (check_limit hourCfg stHour2 discBackend (some "u1") 0 none 0).1 =
      Except.error { limit_type := "requests_per_hour", retry_after := some 3600 } ∧
    (2 : Int) < py_int ((2 : Rat) * (3 / 2)) := by
  constructor
  · rw [check_limit_routes_memory hourCfg stHour2 discBackend (some "u1")
      none 0 0 "u1" rfl rfl (get_identifier_some hourCfg "u1" (by decide) none)]
    rw [check_limit_memory_eq_hour hourCfg stHour2 "u1" 0 0
      (by norm_num [concurrentOf, cleanup_windows, stHour2, initState, hourCfg,
        defaultConfig, mapSet])
      (by norm_num [mrolled, maxRequestsOf, minuteStateOf, cleanup_windows,
        stHour2, initState, hourCfg, defaultConfig, mapSet, roll, py_int,
        rat_floor_eq, freshState])
      (by norm_num [hrolled, hourStateOf, stAfterMinute, setMinuteState,
        minuteStateOf, cleanup_windows, stHour2, initState, hourCfg,
        defaultConfig, mapSet, roll, freshState])]
    norm_num [hrolled, hourStateOf, stAfterMinute, setMinuteState,
      minuteStateOf, cleanup_windows, stHour2, initState, hourCfg,
      defaultConfig, mapSet, roll, freshState]
  · norm_num [py_int, rat_floor_eq]

/-- C5 (amended): the burst multiplier shapes the minute windows only: the
minute request ceiling actually enforced is int(requests_per_minute *
burst_multiplier) (maxRequestsOf), while the hour window is compared
against the configured requests_per_hour with no multiplier.  The concrete
part of the claim holds: with requests_per_minute = 60 and
burst_multiplier = 1.5, the 90th admitted-and-recorded request's check
succeeds and the 91st check fails with the minute request-rate rejection
and retry_after = 60 ∈ (0, 60]. -/
theorem C5_amended (cfg : RateLimitConfig) (st : LimiterState) (id : String)
    (tok : Int) (now : Rat) :
    (limitTypeOf (check_limit_memory cfg st id tok now) = some "requests_per_minute" ↔
      (¬ concurrentOf cfg (cleanup_windows now st) id ≥ cfg.max_concurrent_requests ∧
       (mrolled cfg st id now).count ≥ maxRequestsOf cfg)) ∧
    (limitTypeOf (check_limit_memory cfg st id tok now) = some "requests_per_hour" ↔
      (¬ concurrentOf cfg (cleanup_windows now st) id ≥ cfg.max_concurrent_requests ∧
       ¬ (mrolled cfg st id now).count ≥ maxRequestsOf cfg ∧
       (hrolled cfg st id now).count ≥ cfg.requests_per_hour)) ∧
    ((check_limit defaultConfig (afterN 89) discBackend (some "u1") 0 none 0).1 =
       Except.ok true ∧
     (check_limit defaultConfig (afterN 90) discBackend (some "u1") 0 none 0).1 =
       Except.error { limit_type := "requests_per_minute", retry_after := some 60 } ∧
     (0 : Rat) < 60 ∧ (60 : Rat) ≤ 60) := by
  have hiffs :
      (limitTypeOf (check_limit_memory cfg st id tok now) = some "requests_per_minute" ↔
        (¬ concurrentOf cfg (cleanup_windows now st) id ≥ cfg.max_concurrent_requests ∧
         (mrolled cfg st id now).count ≥ maxRequestsOf cfg)) ∧
      (limitTypeOf (check_limit_memory cfg st id tok now) = some "requests_per_hour" ↔
        (¬ concurrentOf cfg (cleanup_windows now st) id ≥ cfg.max_concurrent_requests ∧
         ¬ (mrolled cfg st id now).count ≥ maxRequestsOf cfg ∧
         (hrolled cfg st id now).count ≥ cfg.requests_per_hour)) := by
    by_cases hc : concurrentOf cfg (cleanup_windows now st) id ≥ cfg.max_concurrent_requests
    · rw [check_limit_memory_eq_conc cfg st id tok now hc]
      constructor <;> simp [limitTypeOf, hc]
    · by_cases hm : (mrolled cfg st id now).count ≥ maxRequestsOf cfg
      · rw [check_limit_memory_eq_minute cfg st id tok now hc hm]
        constructor <;> simp [limitTypeOf, hc, hm]
      · by_cases hh : (hrolled cfg st id now).count ≥ cfg.requests_per_hour
        · rw [check_limit_memory_eq_hour cfg st id tok now hc hm hh]
          constructor <;> simp [limitTypeOf, hc, hm, hh]
        · by_cases ht : tok > 0
          · by_cases htt : (mrolled cfg st id now).tokens + tok > maxTokensOf cfg
            · rw [check_limit_memory_eq_token cfg st id tok now hc hm hh ht htt]
              constructor <;> simp [limitTypeOf, hc, hm, hh]
            · rw [check_limit_memory_eq_ok_token cfg st id tok now hc hm hh ht htt]
              constructor <;> simp [limitTypeOf, hc, hm, hh]
          · rw [check_limit_memory_eq_ok_notoken cfg st id tok now hc hm hh ht]
            constructor <;> simp [limitTypeOf, hc, hm, hh]
  refine ⟨hiffs.1, hiffs.2, ?_, ?_, by norm_num, by norm_num⟩
  · have h89 : afterN 89 = stK 89 := by
      have h := afterN_eq 88 (by norm_num)
      norm_num at h
      exact h
    rw [h89, check_stK 89 (by norm_num)]
  · have h90 : afterN 90 = stK 90 := by
      have h := afterN_eq 89 (by norm_num)
      norm_num at h
      exact h
    rw [h90]
    rw [check_limit_routes_memory defaultConfig (stK 90) discBackend (some "u1")
      none 0 0 "u1" rfl rfl (get_identifier_some defaultConfig "u1" (by decide) none)]
    rw [check_limit_memory_eq_minute defaultConfig (stK 90) "u1" 0 0
      (by norm_num [concurrentOf, cleanup_windows, stK, initState,
        defaultConfig, mapSet])
      (by norm_num [mrolled, maxRequestsOf, minuteStateOf, cleanup_windows,
        stK, initState, defaultConfig, mapSet, roll, py_int, rat_floor_eq,
        freshState])]
    norm_num [mrolled, minuteStateOf, cleanup_windows, stK, initState,
      defaultConfig, mapSet, roll, freshState]

/-- Witness for C5 (amended): both biconditionals applied at concrete
saturated states (minute at 90/90, hour at 2/2). -/
theorem C5_amended_witness :
    limitTypeOf (check_limit_memory defaultConfig stReqSat "u1" 17 0) =
      some "requests_per_minute" ∧
    limitTypeOf (check_limit_memory hourCfg stHour2 "u1" 17 0) =
      some "requests_per_hour" :=
  ⟨(C5_amended defaultConfig stReqSat "u1" 17 0).1.mpr
     ⟨by norm_num [concurrentOf, cleanup_windows, stReqSat, initState,
        defaultConfig, mapSet],
      by norm_num [mrolled, maxRequestsOf, minuteStateOf, cleanup_windows,
        stReqSat, initState, defaultConfig, mapSet, roll, py_int, rat_floor_eq,
        freshState]⟩,
   (C5_amended hourCfg stHour2 "u1" 17 0).2.1.mpr
     ⟨by norm_num [concurrentOf, cleanup_windows, stHour2, initState, hourCfg,
        defaultConfig, mapSet],
      by norm_num [mrolled, maxRequestsOf, minuteStateOf, cleanup_windows,
        stHour2, initState, hourCfg, defaultConfig, mapSet, roll, py_int,
        rat_floor_eq, freshState],
      by norm_num [hrolled, hourStateOf, stAfterMinute, setMinuteState,
        minuteStateOf, cleanup_windows, stHour2, initState, hourCfg,
        defaultConfig, mapSet, roll, freshState]⟩⟩

/-! ## C6 -/

theorem obs_minute_minuteStateOf (cfg : RateLimitConfig) (st : LimiterState)
    (id : String) (now : Rat) :
    obs_minute cfg st id =
      ((minuteStateOf cfg st id now).count, (minuteStateOf cfg st id now).tokens) := by
  unfold obs_minute minuteStateOf freshState
  by_cases hp : cfg.per_user <;> simp [hp]
  cases h : st.user_minute_state id <;> simp

theorem obs_hour_hourStateOf (cfg : RateLimitConfig) (st : LimiterState)
    (id : String) (now : Rat) :
    obs_hour cfg st id =
      ((hourStateOf cfg st id now).count, (hourStateOf cfg st id now).tokens) := by
  unfold obs_hour hourStateOf freshState
  by_cases hp : cfg.per_user <;> simp [hp]
  cases h : st.user_hour_state id <;> simp

theorem obs_minute_setMinuteState (cfg : RateLimitConfig) (st : LimiterState)
    (id : String) (v : RateLimitState) :
    obs_minute cfg (setMinuteState cfg st id v) id = (v.count, v.tokens) := by
  rw [obs_minute_minuteStateOf cfg _ id 0, minuteStateOf_setMinuteState]

theorem obs_minute_setHourState (cfg : RateLimitConfig) (st : LimiterState)
    (id id' : String) (v : RateLimitState) :
    obs_minute cfg (setHourState cfg st id v) id' = obs_minute cfg st id' := by
  rw [obs_minute_minuteStateOf cfg _ id' 0, minuteStateOf_setHourState,
    ← obs_minute_minuteStateOf cfg st id' 0]

theorem obs_hour_setHourState (cfg : RateLimitConfig) (st : LimiterState)
    (id : String) (v : RateLimitState) :
    obs_hour cfg (setHourState cfg st id v) id = (v.count, v.tokens) := by
  rw [obs_hour_hourStateOf cfg _ id 0, hourStateOf_setHourState]

theorem obs_hour_setMinuteState (cfg : RateLimitConfig) (st : LimiterState)
    (id id' : String) (v : RateLimitState) :
    obs_hour cfg (setMinuteState cfg st id v) id' = obs_hour cfg st id' := by
  rw [obs_hour_hourStateOf cfg _ id' 0, hourStateOf_setMinuteState,
    ← obs_hour_hourStateOf cfg st id' 0]

theorem obs_minute_cleanup_cases (cfg : RateLimitConfig) (st : LimiterState)
    (id : String) (now : Rat) :
    obs_minute cfg (cleanup_windows now st) id = obs_minute cfg st id ∨
    (obs_minute cfg (cleanup_windows now st) id = (0, 0) ∧
     now - (minuteStateOf cfg st id now).window_start > 120) := by
  unfold obs_minute cleanup_windows minuteStateOf
  by_cases hp : cfg.per_user <;> simp [hp]
  cases h : st.user_minute_state id with
  | none => left; rfl
  | some v =>
    by_cases hs : now - v.window_start > 120
    · right
      simp [hs]
    · left
      simp [hs]

theorem obs_hour_cleanup_cases (cfg : RateLimitConfig) (st : LimiterState)
    (id : String) (now : Rat) :
    obs_hour cfg (cleanup_windows now st) id = obs_hour cfg st id ∨
    (obs_hour cfg (cleanup_windows now st) id = (0, 0) ∧
     now - (hourStateOf cfg st id now).window_start > 7200) := by
  unfold obs_hour cleanup_windows hourStateOf
  by_cases hp : cfg.per_user <;> simp [hp]
  cases h : st.user_hour_state id with
  | none => left; rfl
  | some v =>
    by_cases hs : now - v.window_start > 7200
    · right
      simp [hs]
    · left
      simp [hs]

theorem roll_cases (p : Rat) (s : RateLimitState) (now : Rat) :
    (roll p s now = s ∧ now - s.window_start < p) ∨
    ((roll p s now).count = 0 ∧ (roll p s now).tokens = s.tokens ∧
     now - s.window_start ≥ p) := by
  unfold roll
  by_cases h : now - s.window_start ≥ p
  · right
    simp [h]
  · left
    refine ⟨by simp [h], by linarith [not_le.mp h]⟩

theorem check_limit_memory_states (cfg : RateLimitConfig) (st : LimiterState)
    (id : String) (tok : Int) (now : Rat) :
    (check_limit_memory cfg st id tok now).2 = cleanup_windows now st ∨
    (check_limit_memory cfg st id tok now).2 = stAfterMinute cfg st id now ∨
    (check_limit_memory cfg st id tok now).2 = stAfterHour cfg st id now ∨
    (check_limit_memory cfg st id tok now).2 = stAfterToken cfg st id now := by
  by_cases hc : concurrentOf cfg (cleanup_windows now st) id ≥ cfg.max_concurrent_requests
  · rw [check_limit_memory_eq_conc cfg st id tok now hc]
    left; rfl
  · by_cases hm : (mrolled cfg st id now).count ≥ maxRequestsOf cfg
    · rw [check_limit_memory_eq_minute cfg st id tok now hc hm]
      right; left; rfl
    · by_cases hh : (hrolled cfg st id now).count ≥ cfg.requests_per_hour
      · rw [check_limit_memory_eq_hour cfg st id tok now hc hm hh]
        right; right; left; rfl
      · by_cases ht : tok > 0
        · by_cases htt : (mrolled cfg st id now).tokens + tok > maxTokensOf cfg
          · rw [check_limit_memory_eq_token cfg st id tok now hc hm hh ht htt]
            right; right; right; rfl
          · rw [check_limit_memory_eq_ok_token cfg st id tok now hc hm hh ht htt]
            right; right; right; rfl
        · rw [check_limit_memory_eq_ok_notoken cfg st id tok now hc hm hh ht]
          right; right; left; rfl

/-- The four request/token counters observable for one identifier are all
nonnegative (true of every state the limiter can actually reach: counters
start at 0 and are only incremented, zeroed or dropped). -/
def obsNonneg (cfg : RateLimitConfig) (st : LimiterState) (id : String) : Prop :=
  0 ≤ (obs_minute cfg st id).1 ∧ 0 ≤ (obs_minute cfg st id).2 ∧
  0 ≤ (obs_hour cfg st id).1 ∧ 0 ≤ (obs_hour cfg st id).2

/-- Componentwise: each of the four counters observable for id either kept
its value or was reset to zero. -/
def obsStep (cfg : RateLimitConfig) (st st' : LimiterState) (id : String) : Prop :=
  ((obs_minute cfg st' id).1 = (obs_minute cfg st id).1 ∨ (obs_minute cfg st' id).1 = 0) ∧
  ((obs_minute cfg st' id).2 = (obs_minute cfg st id).2 ∨ (obs_minute cfg st' id).2 = 0) ∧
  ((obs_hour cfg st' id).1 = (obs_hour cfg st id).1 ∨ (obs_hour cfg st' id).1 = 0) ∧
  ((obs_hour cfg st' id).2 = (obs_hour cfg st id).2 ∨ (obs_hour cfg st' id).2 = 0)

theorem obs_minute_stAfterMinute (cfg : RateLimitConfig) (st : LimiterState)
    (id : String) (now : Rat) :
    obs_minute cfg (stAfterMinute cfg st id now) id =
      ((mrolled cfg st id now).count, (mrolled cfg st id now).tokens) :=
  obs_minute_setMinuteState cfg (cleanup_windows now st) id (mrolled cfg st id now)

theorem obs_hour_stAfterMinute (cfg : RateLimitConfig) (st : LimiterState)
    (id : String) (now : Rat) :
    obs_hour cfg (stAfterMinute cfg st id now) id =
      obs_hour cfg (cleanup_windows now st) id :=
  obs_hour_setMinuteState cfg (cleanup_windows now st) id id (mrolled cfg st id now)

theorem obs_minute_stAfterHour (cfg : RateLimitConfig) (st : LimiterState)
    (id : String) (now : Rat) :
    obs_minute cfg (stAfterHour cfg st id now) id =
      ((mrolled cfg st id now).count, (mrolled cfg st id now).tokens) := by
  unfold stAfterHour
  rw [obs_minute_setHourState, obs_minute_stAfterMinute]

theorem obs_hour_stAfterHour (cfg : RateLimitConfig) (st : LimiterState)
    (id : String) (now : Rat) :
    obs_hour cfg (stAfterHour cfg st id now) id =
      ((hrolled cfg st id now).count, (hrolled cfg st id now).tokens) := by
  unfold stAfterHour
  rw [obs_hour_setHourState]

theorem obs_minute_stAfterToken (cfg : RateLimitConfig) (st : LimiterState)
    (id : String) (now : Rat) :
    obs_minute cfg (stAfterToken cfg st id now) id =
      ((mrolled cfg st id now).count, (mrolled cfg st id now).tokens) := by
  unfold stAfterToken
  rw [obs_minute_setMinuteState]

theorem obs_hour_stAfterToken (cfg : RateLimitConfig) (st : LimiterState)
    (id : String) (now : Rat) :
    obs_hour cfg (stAfterToken cfg st id now) id =
      ((hrolled cfg st id now).count, (hrolled cfg st id now).tokens) := by
  unfold stAfterToken
  rw [obs_hour_setMinuteState, obs_hour_stAfterHour]

theorem mrolled_components (cfg : RateLimitConfig) (st : LimiterState)
    (id : String) (now : Rat) :
    ((mrolled cfg st id now).count = (obs_minute cfg st id).1 ∨
     (mrolled cfg st id now).count = 0) ∧
    ((mrolled cfg st id now).tokens = (obs_minute cfg st id).2 ∨
     (mrolled cfg st id now).tokens = 0) := by
  have hcl := obs_minute_cleanup_cases cfg st id now
  have hob := obs_minute_minuteStateOf cfg (cleanup_windows now st) id now
  have hcount : (minuteStateOf cfg (cleanup_windows now st) id now).count =
      (obs_minute cfg st id).1 ∨
      (minuteStateOf cfg (cleanup_windows now st) id now).count = 0 := by
    rcases hcl with h | ⟨h, _⟩ <;> rw [h] at hob
    · exact Or.inl (congrArg Prod.fst hob).symm
    · right
      simpa using (congrArg Prod.fst hob).symm
  have htok : (minuteStateOf cfg (cleanup_windows now st) id now).tokens =
      (obs_minute cfg st id).2 ∨
      (minuteStateOf cfg (cleanup_windows now st) id now).tokens = 0 := by
    rcases hcl with h | ⟨h, _⟩ <;> rw [h] at hob
    · exact Or.inl (congrArg Prod.snd hob).symm
    · right
      simpa using (congrArg Prod.snd hob).symm
  unfold mrolled
  rcases roll_cases 60 (minuteStateOf cfg (cleanup_windows now st) id now) now with
    ⟨hr, _⟩ | ⟨hr1, hr2, _⟩
  · rw [hr]
    exact ⟨hcount, htok⟩
  · refine ⟨Or.inr hr1, ?_⟩
    rw [hr2]
    exact htok

theorem hrolled_components (cfg : RateLimitConfig) (st : LimiterState)
    (id : String) (now : Rat) :
    ((hrolled cfg st id now).count = (obs_hour cfg st id).1 ∨
     (hrolled cfg st id now).count = 0) ∧
    ((hrolled cfg st id now).tokens = (obs_hour cfg st id).2 ∨
     (hrolled cfg st id now).tokens = 0) := by
  have hcl := obs_hour_cleanup_cases cfg st id now
  have hob := obs_hour_hourStateOf cfg (stAfterMinute cfg st id now) id now
  rw [obs_hour_stAfterMinute] at hob
  have hcount : (hourStateOf cfg (stAfterMinute cfg st id now) id now).count =
      (obs_hour cfg st id).1 ∨
      (hourStateOf cfg (stAfterMinute cfg st id now) id now).count = 0 := by
    rcases hcl with h | ⟨h, _⟩ <;> rw [h] at hob
    · exact Or.inl (congrArg Prod.fst hob).symm
    · right
      simpa using (congrArg Prod.fst hob).symm
  have htok : (hourStateOf cfg (stAfterMinute cfg st id now) id now).tokens =
      (obs_hour cfg st id).2 ∨
      (hourStateOf cfg (stAfterMinute cfg st id now) id now).tokens = 0 := by
    rcases hcl with h | ⟨h, _⟩ <;> rw [h] at hob
    · exact Or.inl (congrArg Prod.snd hob).symm
    · right
      simpa using (congrArg Prod.snd hob).symm
  unfold hrolled
  rcases roll_cases 3600 (hourStateOf cfg (stAfterMinute cfg st id now) id now) now with
    ⟨hr, _⟩ | ⟨hr1, hr2, _⟩
  · rw [hr]
    exact ⟨hcount, htok⟩
  · refine ⟨Or.inr hr1, ?_⟩
    rw [hr2]
    exact htok

/-- After one memory-path check, each observable counter of the checked
identifier is either unchanged or reset to zero — never increased. -/
theorem check_limit_memory_obsStep (cfg : RateLimitConfig) (st : LimiterState)
    (id : String) (tok : Int) (now : Rat) :
    obsStep cfg st ((check_limit_memory cfg st id tok now).2) id := by
  have hmc := mrolled_components cfg st id now
  have hhc := hrolled_components cfg st id now
  have hclm := obs_minute_cleanup_cases cfg st id now
  have hclh := obs_hour_cleanup_cases cfg st id now
  rcases check_limit_memory_states cfg st id tok now with h1 | h1 | h1 | h1 <;>
    rw [h1] <;> unfold obsStep
  · refine ⟨?_, ?_, ?_, ?_⟩
    · rcases hclm with h | ⟨h, _⟩ <;> rw [h] <;> simp
    · rcases hclm with h | ⟨h, _⟩ <;> rw [h] <;> simp
    · rcases hclh with h | ⟨h, _⟩ <;> rw [h] <;> simp
    · rcases hclh with h | ⟨h, _⟩ <;> rw [h] <;> simp
  · rw [obs_minute_stAfterMinute, obs_hour_stAfterMinute]
    refine ⟨by simpa using hmc.1, by simpa using hmc.2, ?_, ?_⟩
    · rcases hclh with h | ⟨h, _⟩ <;> rw [h] <;> simp
    · rcases hclh with h | ⟨h, _⟩ <;> rw [h] <;> simp
  · rw [obs_minute_stAfterHour, obs_hour_stAfterHour]
    exact ⟨by simpa using hmc.1, by simpa using hmc.2,
      by simpa using hhc.1, by simpa using hhc.2⟩
  · rw [obs_minute_stAfterToken, obs_hour_stAfterToken]
    exact ⟨by simpa using hmc.1, by simpa using hmc.2,
      by simpa using hhc.1, by simpa using hhc.2⟩

theorem obsStep_refl (cfg : RateLimitConfig) (st : LimiterState) (id : String) :
    obsStep cfg st st id :=
  ⟨Or.inl rfl, Or.inl rfl, Or.inl rfl, Or.inl rfl⟩

theorem obsStep_trans (cfg : RateLimitConfig) (s1 s2 s3 : LimiterState)
    (id : String) (h1 : obsStep cfg s1 s2 id) (h2 : obsStep cfg s2 s3 id) :
    obsStep cfg s1 s3 id := by
  obtain ⟨a1, a2, a3, a4⟩ := h1
  obtain ⟨b1, b2, b3, b4⟩ := h2
  refine ⟨?_, ?_, ?_, ?_⟩ <;> omega

theorem check_limit_obsStep (cfg : RateLimitConfig) (st : LimiterState)
    (b : RedisRateLimitBackend) (uid sid : Option String) (tok : Int)
    (now : Rat) (id : String)
    (hres : get_identifier cfg uid sid = Except.ok id) :
    obsStep cfg st ((check_limit cfg st b uid tok sid now).2) id := by
  by_cases hen : cfg.enabled = false
  · have : check_limit cfg st b uid tok sid now = (Except.ok true, st) := by
      simp [check_limit, hen]
    rw [this]
    exact obsStep_refl cfg st id
  · have h1 : cfg.enabled = true := by
      cases h : cfg.enabled
      · exact absurd h hen
      · rfl
    by_cases hr : cfg.use_redis = true
    · rw [check_limit_routes_redis cfg st b uid sid tok now id h1 hr hres]
      exact obsStep_refl cfg st id
    · have hr' : cfg.use_redis = false := by
        cases h : cfg.use_redis
        · rfl
        · exact absurd h hr
      rw [check_limit_routes_memory cfg st b uid sid tok now id h1 hr' hres]
      exact check_limit_memory_obsStep cfg st id tok now

theorem minuteStateOf_cleanup_fresh (cfg : RateLimitConfig) (st : LimiterState)
    (id : String) (now : Rat)
    (hf : ¬ now - (minuteStateOf cfg st id now).window_start > 120) :
    minuteStateOf cfg (cleanup_windows now st) id now =
      minuteStateOf cfg st id now := by
  by_cases hp : cfg.per_user
  · unfold minuteStateOf at hf ⊢
    unfold cleanup_windows
    simp only [hp, if_true] at hf ⊢
    cases h : st.user_minute_state id with
    | none => simp
    | some v =>
      rw [h] at hf
      simp only [Option.getD_some] at hf
      simp [hf]
  · unfold minuteStateOf cleanup_windows
    simp [hp]

theorem hourStateOf_cleanup_fresh (cfg : RateLimitConfig) (st : LimiterState)
    (id : String) (now : Rat)
    (hf : ¬ now - (hourStateOf cfg st id now).window_start > 7200) :
    hourStateOf cfg (cleanup_windows now st) id now =
      hourStateOf cfg st id now := by
  by_cases hp : cfg.per_user
  · unfold hourStateOf at hf ⊢
    unfold cleanup_windows
    simp only [hp, if_true] at hf ⊢
    cases h : st.user_hour_state id with
    | none => simp
    | some v =>
      rw [h] at hf
      simp only [Option.getD_some] at hf
      simp [hf]
  · unfold hourStateOf cleanup_windows
    simp [hp]

/-- With both of the checked identifier's windows fresh, a memory-path
check leaves its observable counters exactly unchanged. -/
theorem check_limit_memory_fresh (cfg : RateLimitConfig) (st : LimiterState)
    (id : String) (tok : Int) (now : Rat)
    (hfm : now - (minuteStateOf cfg st id now).window_start < 60)
    (hfh : now - (hourStateOf cfg st id now).window_start < 3600) :
    obs_minute cfg ((check_limit_memory cfg st id tok now).2) id =
      obs_minute cfg st id ∧
    obs_hour cfg ((check_limit_memory cfg st id tok now).2) id =
      obs_hour cfg st id := by
  have hclm := minuteStateOf_cleanup_fresh cfg st id now (by linarith)
  have hclh := hourStateOf_cleanup_fresh cfg st id now (by linarith)
  have hmro : mrolled cfg st id now = minuteStateOf cfg st id now := by
    unfold mrolled roll
    rw [hclm, if_neg (by linarith)]
  have hsam : hourStateOf cfg (stAfterMinute cfg st id now) id now =
      hourStateOf cfg st id now := by
    unfold stAfterMinute
    rw [hourStateOf_setMinuteState, hclh]
  have hhro : hrolled cfg st id now = hourStateOf cfg st id now := by
    unfold hrolled roll
    rw [hsam, if_neg (by linarith)]
  have hobm_cl : obs_minute cfg (cleanup_windows now st) id = obs_minute cfg st id := by
    rw [obs_minute_minuteStateOf cfg _ id now, hclm,
      ← obs_minute_minuteStateOf cfg st id now]
  have hobh_cl : obs_hour cfg (cleanup_windows now st) id = obs_hour cfg st id := by
    rw [obs_hour_hourStateOf cfg _ id now, hclh,
      ← obs_hour_hourStateOf cfg st id now]
  rcases check_limit_memory_states cfg st id tok now with h | h | h | h <;> rw [h]
  · exact ⟨hobm_cl, hobh_cl⟩
  · rw [obs_minute_stAfterMinute, obs_hour_stAfterMinute, hmro, hobh_cl]
    exact ⟨(obs_minute_minuteStateOf cfg st id now).symm, rfl⟩
  · rw [obs_minute_stAfterHour, obs_hour_stAfterHour, hmro, hhro]
    exact ⟨(obs_minute_minuteStateOf cfg st id now).symm,
      (obs_hour_hourStateOf cfg st id now).symm⟩
  · rw [obs_minute_stAfterToken, obs_hour_stAfterToken, hmro, hhro]
    exact ⟨(obs_minute_minuteStateOf cfg st id now).symm,
      (obs_hour_hourStateOf cfg st id now).symm⟩

/-- A sequence of checks (estimated_tokens, now pairs), no record between. -/
def runChecks (cfg : RateLimitConfig) (b : RedisRateLimitBackend)
    (uid sid : Option String) (steps : List (Int × Rat)) (st : LimiterState) :
    LimiterState :=
  steps.foldl (fun s p => (check_limit cfg s b uid p.1 sid p.2).2) st

theorem runChecks_obsStep (cfg : RateLimitConfig) (b : RedisRateLimitBackend)
    (uid sid : Option String) (id : String)
    (hres : get_identifier cfg uid sid = Except.ok id) :
    ∀ (steps : List (Int × Rat)) (st : LimiterState),
      obsStep cfg st (runChecks cfg b uid sid steps st) id := by
  intro steps
  induction steps with
  | nil =>
    intro st
    exact obsStep_refl cfg st id
  | cons p rest ih =>
    intro st
    have hstep := check_limit_obsStep cfg st b uid sid p.1 p.2 id hres
    have hrest := ih ((check_limit cfg st b uid p.1 sid p.2).2)
    exact obsStep_trans cfg st _ _ id hstep hrest

/-- C6: check never accounts a request against the checked identifier:
after any check each of its four observable counters (minute/hour,
request/token) is either unchanged or reset to zero by lazy rollover or
cleanup — never increased (first and second conjuncts, the second for
whole sequences of checks with no intervening record); in particular the
counters never increase (third conjunct, for nonnegative counters, which
all reachable states have); and when both windows are fresh (no rollover
observed) a local check leaves the counters exactly unchanged (fourth
conjunct). -/
theorem C6_check_never_accounts (cfg : RateLimitConfig) (st : LimiterState)
    (b : RedisRateLimitBackend) (uid sid : Option String) (id : String)
    (hres : get_identifier cfg uid sid = Except.ok id) :
    (∀ (tok : Int) (now : Rat),
      obsStep cfg st ((check_limit cfg st b uid tok sid now).2) id) ∧
    (∀ steps : List (Int × Rat),
      obsStep cfg st (runChecks cfg b uid sid steps st) id) ∧
    (∀ (tok : Int) (now : Rat), obsNonneg cfg st id →
      (obs_minute cfg ((check_limit cfg st b uid tok sid now).2) id).1 ≤
        (obs_minute cfg st id).1 ∧
      (obs_minute cfg ((check_limit cfg st b uid tok sid now).2) id).2 ≤
        (obs_minute cfg st id).2 ∧
      (obs_hour cfg ((check_limit cfg st b uid tok sid now).2) id).1 ≤
        (obs_hour cfg st id).1 ∧
      (obs_hour cfg ((check_limit cfg st b uid tok sid now).2) id).2 ≤
        (obs_hour cfg st id).2) ∧
    (∀ (tok : Int) (now : Rat), cfg.enabled = true → cfg.use_redis = false →
      now - (minuteStateOf cfg st id now).window_start < 60 →
      now - (hourStateOf cfg st id now).window_start < 3600 →
      obs_minute cfg ((check_limit cfg st b uid tok sid now).2) id =
        obs_minute cfg st id ∧
      obs_hour cfg ((check_limit cfg st b uid tok sid now).2) id =
        obs_hour cfg st id) := by
  refine ⟨?_, ?_, ?_, ?_⟩
  · intro tok now
    exact check_limit_obsStep cfg st b uid sid tok now id hres
  · intro steps
    exact runChecks_obsStep cfg b uid sid id hres steps st
  · intro tok now hnn
    obtain ⟨n1, n2, n3, n4⟩ := hnn
    obtain ⟨s1, s2, s3, s4⟩ := check_limit_obsStep cfg st b uid sid tok now id hres
    refine ⟨?_, ?_, ?_, ?_⟩ <;> omega
  · intro tok now h1 h2 hfm hfh
    rw [check_limit_routes_memory cfg st b uid sid tok now id h1 h2 hres]
    exact check_limit_memory_fresh cfg st id tok now hfm hfh

/-- Witness for C6 at a token-saturated state: one check and a two-check
sequence leave the counters unchanged-or-zeroed, the non-increase bounds
hold, and a fresh-window check leaves them exactly unchanged. -/
theorem C6_check_never_accounts_witness :
    obsStep defaultConfig stTokSat
      ((check_limit defaultConfig stTokSat discBackend (some "u") 1 none 60).2) "u" ∧
    obsStep defaultConfig stTokSat
      (runChecks defaultConfig discBackend (some "u") none [(1, 30), (1, 45)] stTokSat) "u" ∧
    (obs_minute defaultConfig
      ((check_limit defaultConfig stTokSat discBackend (some "u") 1 none 30).2) "u").2 ≤
      (obs_minute defaultConfig stTokSat "u").2 ∧
    obs_minute defaultConfig
      ((check_limit defaultConfig stTokSat discBackend (some "u") 1 none 30).2) "u" =
      obs_minute defaultConfig stTokSat "u" := by
  have h := C6_check_never_accounts defaultConfig stTokSat discBackend (some "u")
    none "u" (get_identifier_some defaultConfig "u" (by decide) none)
  refine ⟨h.1 1 60, h.2.1 [(1, 30), (1, 45)], ?_, ?_⟩
  · exact (h.2.2.1 1 30
      (by norm_num [obsNonneg, obs_minute, obs_hour, stTokSat, initState,
        defaultConfig, mapSet])).2.1
  · exact (h.2.2.2 1 30 rfl rfl
      (by norm_num [minuteStateOf, stTokSat, initState, defaultConfig, mapSet,
        freshState])
      (by norm_num [hourStateOf, stTokSat, initState, defaultConfig, mapSet,
        freshState])).1

/-! ## C7 -/

/-- Every concurrency counter (per-identifier entries and the global one)
is nonnegative. -/
def ConcNonneg (st : LimiterState) : Prop :=
  (∀ k, 0 ≤ (st.concurrent_requests k).getD 0) ∧ 0 ≤ st.global_concurrent

/-- One acquire (true) or release (false) call. -/
def slotOp (cfg : RateLimitConfig) (b : RedisRateLimitBackend)
    (uid sid : Option String) (st : LimiterState) (op : Bool) : LimiterState :=
  if op then (acquire_concurrent_slot cfg st b uid sid).2.1
  else (release_concurrent_slot cfg st b uid sid).2.1

/-- A sequence of acquire/release calls. -/
def runSlots (cfg : RateLimitConfig) (b : RedisRateLimitBackend)
    (uid sid : Option String) (ops : List Bool) (st : LimiterState) :
    LimiterState :=
  ops.foldl (slotOp cfg b uid sid) st

/-- The counter dynamics the local path implements: +1 on acquire,
max(0, x-1) on release. -/
def slotRun (ops : List Bool) (c : Int) : Int :=
  ops.foldl (fun c op => if op then c + 1 else max 0 (c - 1)) c

/-- Number of acquires in a sequence. -/
def countAcq : List Bool → Int
  | [] => 0
  | true :: rest => countAcq rest + 1
  | false :: rest => countAcq rest

/-- Number of releases in a sequence. -/
def countRel : List Bool → Int
  | [] => 0
  | true :: rest => countRel rest
  | false :: rest => countRel rest + 1

theorem slotRun_balanced : ∀ (ops : List Bool) (c : Int), 0 ≤ c →
    (∀ n, countRel (ops.take n) ≤ c + countAcq (ops.take n)) →
    slotRun ops c = c + countAcq ops - countRel ops := by
  intro ops
  induction ops with
  | nil =>
    intro c h0 hb
    simp [slotRun, countAcq, countRel]
  | cons op rest ih =>
    intro c h0 hb
    cases op
    · have hc1 : (1 : Int) ≤ c := by
        have := hb 1
        simpa [List.take_succ_cons, countAcq, countRel] using this
      have hmax : max 0 (c - 1) = c - 1 := by omega
      have hrun : slotRun (false :: rest) c = slotRun rest (c - 1) := by
        simp [slotRun, hmax]
      rw [hrun, ih (c - 1) (by omega) ?_]
      · simp [countAcq, countRel]
        ring
      · intro n
        have := hb (n + 1)
        simp only [List.take_succ_cons, countAcq, countRel] at this
        omega
    · have hrun : slotRun (true :: rest) c = slotRun rest (c + 1) := by
        simp [slotRun]
      rw [hrun, ih (c + 1) (by omega) ?_]
      · simp [countAcq, countRel]
        ring
      · intro n
        have := hb (n + 1)
        simp only [List.take_succ_cons, countAcq, countRel] at this
        omega

theorem concurrentOf_slotOp (cfg : RateLimitConfig) (st : LimiterState)
    (b : RedisRateLimitBackend) (uid sid : Option String) (id : String)
    (op : Bool) (h1 : cfg.enabled = true) (h2 : cfg.use_redis = false)
    (hres : get_identifier cfg uid sid = Except.ok id) :
    concurrentOf cfg (slotOp cfg b uid sid st op) id =
      if op then concurrentOf cfg st id + 1
      else max 0 (concurrentOf cfg st id - 1) := by
  cases op <;>
    simp [slotOp, acquire_concurrent_slot, release_concurrent_slot, h1, h2,
      hres, concurrentOf_setConcurrent]

theorem runSlots_spec (cfg : RateLimitConfig) (b : RedisRateLimitBackend)
    (uid sid : Option String) (id : String) (h1 : cfg.enabled = true)
    (h2 : cfg.use_redis = false)
    (hres : get_identifier cfg uid sid = Except.ok id) :
    ∀ (ops : List Bool) (st : LimiterState),
      concurrentOf cfg (runSlots cfg b uid sid ops st) id =
        slotRun ops (concurrentOf cfg st id) := by
  intro ops
  induction ops with
  | nil =>
    intro st
    simp [runSlots, slotRun]
  | cons op rest ih =>
    intro st
    have hfold : runSlots cfg b uid sid (op :: rest) st =
        runSlots cfg b uid sid rest (slotOp cfg b uid sid st op) := rfl
    have hfold2 : slotRun (op :: rest) (concurrentOf cfg st id) =
        slotRun rest (if op then concurrentOf cfg st id + 1
          else max 0 (concurrentOf cfg st id - 1)) := by
      cases op <;> simp [slotRun]
    rw [hfold, ih, hfold2, concurrentOf_slotOp cfg st b uid sid id op h1 h2 hres]

theorem concurrentOf_nonneg (cfg : RateLimitConfig) (st : LimiterState)
    (id : String) (h : ConcNonneg st) : 0 ≤ concurrentOf cfg st id := by
  obtain ⟨hmap, hg⟩ := h
  unfold concurrentOf
  by_cases hp : cfg.per_user <;> simp [hp]
  · exact hmap id
  · exact hg

theorem setConcurrent_ConcNonneg (cfg : RateLimitConfig) (st : LimiterState)
    (id : String) (v : Int) (h : ConcNonneg st) (hv : 0 ≤ v) :
    ConcNonneg (setConcurrent cfg st id v) := by
  obtain ⟨hmap, hg⟩ := h
  unfold ConcNonneg setConcurrent
  by_cases hp : cfg.per_user <;> simp [hp]
  · constructor
    · intro k
      by_cases hk : k = id <;> simp [mapSet, hk]
      · exact hv
      · exact hmap k
    · exact hg
  · exact ⟨hmap, hv⟩

theorem slotOp_ConcNonneg (cfg : RateLimitConfig) (b : RedisRateLimitBackend)
    (uid sid : Option String) (op : Bool) (st : LimiterState)
    (h : ConcNonneg st) : ConcNonneg (slotOp cfg b uid sid st op) := by
  by_cases hen : cfg.enabled = false
  · cases op <;>
      simp only [slotOp, acquire_concurrent_slot, release_concurrent_slot,
        hen, if_true, if_false] <;> exact h
  · cases hres : get_identifier cfg uid sid with
    | error e =>
      cases op <;>
        simp [slotOp, acquire_concurrent_slot, release_concurrent_slot,
          hen, hres] <;> exact h
    | ok i =>
      by_cases hr : cfg.use_redis = true
      · cases op <;>
          simp [slotOp, acquire_concurrent_slot, release_concurrent_slot,
            hen, hres, hr] <;> exact h
      · have hr2 : cfg.use_redis = false := by
          cases hx : cfg.use_redis
          · rfl
          · exact absurd hx hr
        cases op
        · have heq : slotOp cfg b uid sid st false =
              setConcurrent cfg st i (max 0 (concurrentOf cfg st i - 1)) := by
            simp [slotOp, release_concurrent_slot, hen, hres, hr2]
          rw [heq]
          exact setConcurrent_ConcNonneg cfg st i _ h (le_max_left 0 _)
        · have heq : slotOp cfg b uid sid st true =
              setConcurrent cfg st i (concurrentOf cfg st i + 1) := by
            simp [slotOp, acquire_concurrent_slot, hen, hres, hr2]
          rw [heq]
          have := concurrentOf_nonneg cfg st i h
          exact setConcurrent_ConcNonneg cfg st i _ h (by omega)

theorem runSlots_ConcNonneg (cfg : RateLimitConfig) (b : RedisRateLimitBackend)
    (uid sid : Option String) :
    ∀ (ops : List Bool) (st : LimiterState), ConcNonneg st →
      ConcNonneg (runSlots cfg b uid sid ops st) := by
  intro ops
  induction ops with
  | nil =>
    intro st h
    exact h
  | cons op rest ih =>
    intro st h
    exact ih _ (slotOp_ConcNonneg cfg b uid sid op st h)

/-- C7: the concurrency counter never goes negative under any sequence of
acquire/release calls (first conjunct); releasing at zero leaves it at
zero (second conjunct); after any balanced sequence — equal acquire and
release counts, every release preceded by its acquire — the counter is
back at exactly 0 (third conjunct); and the distributed backend's
decrement clamps the stored counter at zero and never returns a negative
count (fourth conjunct). -/
theorem C7_concurrency (cfg : RateLimitConfig) (st : LimiterState)
    (b : RedisRateLimitBackend) (uid sid : Option String) (id : String) :
    (∀ ops : List Bool, ConcNonneg st →
      ConcNonneg (runSlots cfg b uid sid ops st)) ∧
    (cfg.enabled = true → cfg.use_redis = false →
      get_identifier cfg uid sid = Except.ok id →
      concurrentOf cfg st id = 0 →
      concurrentOf cfg ((release_concurrent_slot cfg st b uid sid).2.1) id = 0) ∧
    (cfg.enabled = true → cfg.use_redis = false →
      get_identifier cfg uid sid = Except.ok id →
      concurrentOf cfg st id = 0 →
      ∀ ops : List Bool,
        (∀ n, countRel (ops.take n) ≤ countAcq (ops.take n)) →
        countAcq ops = countRel ops →
        concurrentOf cfg (runSlots cfg b uid sid ops st) id = 0) ∧
    (∀ (b2 : RedisRateLimitBackend) (i : String), b2.connected = true →
      ((b2.decr_concurrent i).2).store (make_key i "concurrent") =
        max 0 (b2.store (make_key i "concurrent") - 1) ∧
      0 ≤ (b2.decr_concurrent i).1) := by
  refine ⟨?_, ?_, ?_, ?_⟩
  · intro ops h
    exact runSlots_ConcNonneg cfg b uid sid ops st h
  · intro h1 h2 hres h0
    have := concurrentOf_slotOp cfg st b uid sid id false h1 h2 hres
    simp only [if_false, Bool.false_eq_true] at this
    rw [show (release_concurrent_slot cfg st b uid sid).2.1 =
      slotOp cfg b uid sid st false from rfl, this, h0]
    rfl
  · intro h1 h2 hres h0 ops hbal heq
    rw [runSlots_spec cfg b uid sid id h1 h2 hres ops st, h0]
    rw [slotRun_balanced ops 0 le_rfl (by simpa using hbal)]
    omega
  · intro b2 i hb
    by_cases hn : b2.store (make_key i "concurrent") - 1 < 0 <;>
      refine ⟨?_, ?_⟩ <;>
        simp [RedisRateLimitBackend.decr_concurrent, hb, hn, storeSet_same] <;>
        omega

/-- Witness for C7: two acquires followed by two releases for "u" from the
empty state return the counter to 0 and keep every counter nonnegative;
a release at zero stays at zero; the connected backend decrement clamps. -/
theorem C7_concurrency_witness :
    ConcNonneg (runSlots defaultConfig discBackend (some "u") none
      [true, true, false, false] (initState 0)) ∧
    concurrentOf defaultConfig
      ((release_concurrent_slot defaultConfig (initState 0) discBackend
        (some "u") none).2.1) "u" = 0 ∧
    concurrentOf defaultConfig (runSlots defaultConfig discBackend (some "u")
      none [true, true, false, false] (initState 0)) "u" = 0 ∧
    ((bTen.decr_concurrent "u").2).store (make_key "u" "concurrent") =
      max 0 (bTen.store (make_key "u" "concurrent") - 1) := by
  have h := C7_concurrency defaultConfig (initState 0) discBackend (some "u")
    none "u"
  have hnn : ConcNonneg (initState 0) := by
    constructor
    · intro k
      simp [initState]
    · simp [initState]
  have h0 : concurrentOf defaultConfig (initState 0) "u" = 0 := by
    simp [concurrentOf, initState, defaultConfig]
  refine ⟨h.1 [true, true, false, false] hnn,
    h.2.1 rfl rfl (get_identifier_some defaultConfig "u" (by decide) none) h0,
    h.2.2.1 rfl rfl (get_identifier_some defaultConfig "u" (by decide) none) h0
      [true, true, false, false] ?_ (by decide),
    (h.2.2.2 bTen "u" rfl).1⟩
  intro n
  match n with
  | 0 => decide
  | 1 => decide
  | 2 => decide
  | 3 => decide
  | (m + 4) =>
    rw [List.take_of_length_le (by simp)]
    decide

/-! ## C9 -/

/-- The retry-hint contract for a memory-path rejection produced at time
now with post-check state st2: minute-window rejections (request or token)
carry 60 - (now - window_start) clamped to ≥ 0, hour rejections carry
3600 - (now - window_start) clamped to ≥ 0, concurrency rejections carry
the fixed hint 1. -/
def memRetrySpec (cfg : RateLimitConfig) (st2 : LimiterState) (id : String)
    (now : Rat) (e : RateLimitExceeded) : Prop :=
  (e.limit_type = "concurrent" → e.retry_after = some 1) ∧
  (e.limit_type = "requests_per_minute" →
    e.retry_after =
      some (max 0 (60 - (now - (minuteStateOf cfg st2 id now).window_start)))) ∧
  (e.limit_type = "tokens_per_minute" →
    e.retry_after =
      some (max 0 (60 - (now - (minuteStateOf cfg st2 id now).window_start)))) ∧
  (e.limit_type = "requests_per_hour" →
    e.retry_after =
      some (max 0 (3600 - (now - (hourStateOf cfg st2 id now).window_start))))

/-- The same contract for the distributed path, whose implicit window
anchor is the minute (hour) boundary 60 * floor(now / 60)
(3600 * floor(now / 3600)). -/
def redisRetrySpec (now : Rat) (e : RateLimitExceeded) : Prop :=
  (e.limit_type = "concurrent" → e.retry_after = some 1) ∧
  (e.limit_type = "requests_per_minute" →
    e.retry_after =
      some (max 0 (60 - (now - 60 * (((now / 60).floor : Int) : Rat))))) ∧
  (e.limit_type = "requests_per_hour" →
    e.retry_after =
      some (max 0 (3600 - (now - 3600 * (((now / 3600).floor : Int) : Rat)))))

/-- C9: every rejection of check carries the spec's retry hint: for minute
windows 60 - (now - window_start) clamped to ≥ 0 (both the request-count
and the token rejection), for hour windows 3600 - (now - window_start)
clamped to ≥ 0, and the fixed hint of 1 second for concurrency — on the
local path against the stored (post-rollover) window_start, and on the
distributed path against the window boundary implied by the window key. -/
theorem C9_retry_hints (cfg : RateLimitConfig) (st : LimiterState)
    (id : String) (tok : Int) (now : Rat) :
    (∀ (e : RateLimitExceeded) (st2 : LimiterState),
      check_limit_memory cfg st id tok now = (Except.error e, st2) →
      memRetrySpec cfg st2 id now e) ∧
    (∀ (b : RedisRateLimitBackend) (e : RateLimitExceeded),
      check_limit_redis cfg b id tok now = Except.error e →
      redisRetrySpec now e) := by
  constructor
  · intro e st2 he
    by_cases hc : concurrentOf cfg (cleanup_windows now st) id ≥ cfg.max_concurrent_requests
    · rw [check_limit_memory_eq_conc cfg st id tok now hc] at he
      simp only [Prod.mk.injEq] at he
      obtain ⟨he1, he2⟩ := he
      injection he1 with he1
      subst he1
      subst he2
      exact ⟨fun _ => rfl,
        fun hx => absurd hx (by simp),
        fun hx => absurd hx (by simp),
        fun hx => absurd hx (by simp)⟩
    · by_cases hm : (mrolled cfg st id now).count ≥ maxRequestsOf cfg
      · rw [check_limit_memory_eq_minute cfg st id tok now hc hm] at he
        simp only [Prod.mk.injEq] at he
        obtain ⟨he1, he2⟩ := he
        injection he1 with he1
        subst he1
        subst he2
        refine ⟨fun hx => absurd hx (by simp), fun _ => ?_,
          fun hx => absurd hx (by simp), fun hx => absurd hx (by simp)⟩
        unfold stAfterMinute
        rw [minuteStateOf_setMinuteState]
      · by_cases hh : (hrolled cfg st id now).count ≥ cfg.requests_per_hour
        · rw [check_limit_memory_eq_hour cfg st id tok now hc hm hh] at he
          simp only [Prod.mk.injEq] at he
          obtain ⟨he1, he2⟩ := he
          injection he1 with he1
          subst he1
          subst he2
          refine ⟨fun hx => absurd hx (by simp), fun hx => absurd hx (by simp),
            fun hx => absurd hx (by simp), fun _ => ?_⟩
          unfold stAfterHour
          rw [hourStateOf_setHourState]
        · by_cases ht : tok > 0
          · by_cases htt : (mrolled cfg st id now).tokens + tok > maxTokensOf cfg
            · rw [check_limit_memory_eq_token cfg st id tok now hc hm hh ht htt] at he
              simp only [Prod.mk.injEq] at he
              obtain ⟨he1, he2⟩ := he
              injection he1 with he1
              subst he1
              subst he2
              refine ⟨fun hx => absurd hx (by simp), fun hx => absurd hx (by simp),
                fun _ => ?_, fun hx => absurd hx (by simp)⟩
              unfold stAfterToken
              rw [minuteStateOf_setMinuteState]
            · rw [check_limit_memory_eq_ok_token cfg st id tok now hc hm hh ht htt] at he
              simp at he
          · rw [check_limit_memory_eq_ok_notoken cfg st id tok now hc hm hh ht] at he
            simp at he
  · intro b e he
    simp only [check_limit_redis] at he
    split_ifs at he with h1 h2 h3 <;> injection he with he1
    · subst he1
      exact ⟨fun _ => rfl, fun hx => absurd hx (by simp),
        fun hx => absurd hx (by simp)⟩
    · subst he1
      refine ⟨fun hx => absurd hx (by simp), fun _ => ?_,
        fun hx => absurd hx (by simp)⟩
      have hlt := pymod_lt now 60 (by norm_num)
      have hge : (0 : Rat) ≤ 60 - pymod now 60 := by linarith
      unfold pymod at hge ⊢
      rw [max_eq_right hge]
    · subst he1
      refine ⟨fun hx => absurd hx (by simp), fun hx => absurd hx (by simp),
        fun _ => ?_⟩
      have hlt := pymod_lt now 3600 (by norm_num)
      have hge : (0 : Rat) ≤ 3600 - pymod now 3600 := by linarith
      unfold pymod at hge ⊢
      rw [max_eq_right hge]

/-- Witness for C9: a concurrency rejection on the local path and on the
distributed path, both checked against the retry contract. -/
theorem C9_retry_hints_witness :
    memRetrySpec defaultConfig (cleanup_windows 0 stConc10) "u" 0
      { limit_type := "concurrent", retry_after := some 1 } ∧
    redisRetrySpec 0 { limit_type := "concurrent", retry_after := some 1 } := by
  constructor
  · exact (C9_retry_hints defaultConfig stConc10 "u" 0 0).1
      { limit_type := "concurrent", retry_after := some 1 }
      (cleanup_windows 0 stConc10)
      (check_limit_memory_eq_conc defaultConfig stConc10 "u" 0 0
        (by norm_num [concurrentOf, cleanup_windows, stConc10, initState,
          defaultConfig, mapSet]))
  · exact (C9_retry_hints defaultConfig (initState 0) "u" 0 0).2 bTen
      { limit_type := "concurrent", retry_after := some 1 }
      (by norm_num [check_limit_redis, RedisRateLimitBackend.get_count,
        RedisRateLimitBackend.get_concurrent, py_int, rat_floor_eq,
        defaultConfig, bTen])
